import Mathlib

/-!
# Core Banking API demo client (JavaScript): a shallow embedding

The development embeds `src/api/endpoints.js`, `src/api/BankingApiClient.js`,
`src/utils/logger.js`, `src/utils/formatters.js` and `src/demo.js`.

* JavaScript strings are sequences of UTF-16 code units (`JsString`); the
  difference from sequences of Unicode characters matters for
  `encodeURIComponent`, which throws on an unpaired surrogate.
* The language built-ins the source calls (`encodeURIComponent`,
  `decodeURIComponent`, `String.prototype.replace` with the pattern `/\/$/`,
  `JSON.stringify`, `JSON.parse`) are embedded after ECMA-262.
* Asynchronous, effectful code is written in state-passing style over a
  `Trace` that records every `fetch` invocation and every console line; the
  behaviour of the network is an arbitrary function (`Network`): a `fetch` is
  rejected or resolves, and reading the body of a response succeeds or fails.
-/

/-! ## JavaScript strings -/

/-- One UTF-16 code unit. -/
abbrev CodeUnit := Fin 65536

/-- A JavaScript string value: a finite sequence of UTF-16 code units. -/
abbrev JsString := List CodeUnit

/-- The code unit with the given numeric value (reduced modulo `2^16`). -/
def codeUnit (n : Nat) : CodeUnit := ⟨n % 65536, Nat.mod_lt _ (by decide)⟩

/-- ECMA-262 `UTF16EncodeCodePoint`. -/
def utf16EncodeCodePoint (cp : Nat) : JsString :=
  if cp ≤ 0xFFFF then [codeUnit cp]
  else
    [codeUnit ((cp - 0x10000) / 0x400 + 0xD800), codeUnit ((cp - 0x10000) % 0x400 + 0xDC00)]

/-- The JavaScript string denoted by a source-text literal. -/
def js (s : String) : JsString := s.toList.flatMap fun c => utf16EncodeCodePoint c.toNat

/-- A leading (high) surrogate, `0xD800..0xDBFF`. -/
def isLeadingSurrogate (c : CodeUnit) : Bool := 0xD800 ≤ c.val && c.val ≤ 0xDBFF

/-- A trailing (low) surrogate, `0xDC00..0xDFFF`. -/
def isTrailingSurrogate (c : CodeUnit) : Bool := 0xDC00 ≤ c.val && c.val ≤ 0xDFFF

/-- ECMA-262 `UTF16SurrogatePairToCodePoint`. -/
def utf16SurrogatePairToCodePoint (lead trail : CodeUnit) : Nat :=
  (lead.val - 0xD800) * 0x400 + (trail.val - 0xDC00) + 0x10000

/-- A string is well formed when every surrogate code unit is part of a
leading/trailing pair (ECMA-262 `IsStringWellFormedUnicode`). -/
def isWellFormedUnicode : JsString → Bool
  | [] => true
  | c :: rest =>
    if isLeadingSurrogate c then
      match rest with
      | d :: rest2 => isTrailingSurrogate d && isWellFormedUnicode rest2
      | [] => false
    else if isTrailingSurrogate c then false
    else isWellFormedUnicode rest

/-! ## Errors -/

/-- The error constructors that occur in the program and its built-ins. -/
inductive ErrorKind where
  | Error
  | TypeError
  | URIError
  | SyntaxError
  deriving DecidableEq, Repr

/-- A thrown JavaScript error object: its constructor and its `message`. -/
structure JsError where
  kind : ErrorKind
  message : JsString
  deriving DecidableEq, Repr

/-- The `URIError` thrown by the URI functions (message as in V8). -/
def uriMalformed : JsError := ⟨ErrorKind.URIError, js "URI malformed"⟩

deriving instance DecidableEq for Except

/-! ## `encodeURIComponent` and `decodeURIComponent` (ECMA-262 19.2.6) -/

/-- The code units `encodeURIComponent` leaves as they are: the ASCII word
characters and `-.!~*'()`. -/
def isUnescaped (c : CodeUnit) : Bool :=
  (65 ≤ c.val && c.val ≤ 90) || (97 ≤ c.val && c.val ≤ 122) || (48 ≤ c.val && c.val ≤ 57)
    || c.val = 95 || c.val = 45 || c.val = 46 || c.val = 33 || c.val = 126 || c.val = 42
    || c.val = 39 || c.val = 40 || c.val = 41

/-- The UTF-8 encoding of a code point, as a list of octets. -/
def utf8Encode (cp : Nat) : List Nat :=
  if cp < 0x80 then [cp]
  else if cp < 0x800 then [0xC0 + cp / 0x40, 0x80 + cp % 0x40]
  else if cp < 0x10000 then [0xE0 + cp / 0x1000, 0x80 + cp / 0x40 % 0x40, 0x80 + cp % 0x40]
  else
    [0xF0 + cp / 0x40000, 0x80 + cp / 0x1000 % 0x40, 0x80 + cp / 0x40 % 0x40, 0x80 + cp % 0x40]

/-- The upper-case hexadecimal digit of a value below 16. -/
def hexDigitUpper (d : Nat) : CodeUnit := if d < 10 then codeUnit (48 + d) else codeUnit (55 + d)

/-- The escape `%XX` of one octet. -/
def percentEscape (octet : Nat) : JsString :=
  [codeUnit 37, hexDigitUpper (octet / 16), hexDigitUpper (octet % 16)]

/-- The escapes of all octets of the UTF-8 encoding of a code point. -/
def escapeCodePoint (cp : Nat) : JsString := (utf8Encode cp).flatMap percentEscape

/-- ECMA-262 `Encode(string, extraUnescaped)` with an empty `extraUnescaped`:
a code unit of the unescaped set is copied; otherwise the code point at the
position is read (`CodePointAt`), an unpaired surrogate throws a `URIError`, and
the code point is replaced by the escapes of its UTF-8 octets. -/
def encodeURIComponent : JsString → Except JsError JsString
  | [] => Except.ok []
  | c :: rest =>
    if isUnescaped c then
      match encodeURIComponent rest with
      | Except.ok r => Except.ok (c :: r)
      | Except.error e => Except.error e
    else if isLeadingSurrogate c then
      match rest with
      | d :: rest2 =>
        if isTrailingSurrogate d then
          match encodeURIComponent rest2 with
          | Except.ok r => Except.ok (escapeCodePoint (utf16SurrogatePairToCodePoint c d) ++ r)
          | Except.error e => Except.error e
        else Except.error uriMalformed
      | [] => Except.error uriMalformed
    else if isTrailingSurrogate c then Except.error uriMalformed
    else
      match encodeURIComponent rest with
      | Except.ok r => Except.ok (escapeCodePoint c.val ++ r)
      | Except.error e => Except.error e

/-- The value of a hexadecimal digit (`0-9`, `A-F`, `a-f`). -/
def hexValue (c : CodeUnit) : Option Nat :=
  if 48 ≤ c.val && c.val ≤ 57 then some (c.val - 48)
  else if 65 ≤ c.val && c.val ≤ 70 then some (c.val - 55)
  else if 97 ≤ c.val && c.val ≤ 102 then some (c.val - 87)
  else none

/-- ECMA-262 `ParseHexOctet` on the two code units after a `%`. -/
def parseHexOctet (h1 h2 : CodeUnit) : Option Nat :=
  match hexValue h1, hexValue h2 with
  | some a, some b => some (16 * a + b)
  | _, _ => none

/-- Reads `j` further escapes `%XX` (step 4.c.viii.4 of `Decode`), giving their
octets and the rest of the string; `none` where the specification throws. -/
def readContinuation : Nat → JsString → Option (List Nat × JsString)
  | 0, s => some ([], s)
  | j + 1, p :: h1 :: h2 :: rest =>
    if p = codeUnit 37 then
      match parseHexOctet h1 h2 with
      | some b =>
        match readContinuation j rest with
        | some (bs, r) => some (b :: bs, r)
        | none => none
      | none => none
    else none
  | _ + 1, _ => none

/-- The number of leading 1 bits of an octet, capped at 5 (all of 5..8 throw). -/
def leadingOnes (b : Nat) : Nat :=
  if b < 0x80 then 0 else if b < 0xC0 then 1 else if b < 0xE0 then 2
  else if b < 0xF0 then 3 else if b < 0xF8 then 4 else 5

/-- A continuation octet `10xxxxxx`. -/
def isContinuationOctet (b : Nat) : Bool := 0x80 ≤ b && b ≤ 0xBF

/-- The code point of a multi-octet sequence when it is a valid UTF-8 encoding
(well-formed continuation octets, no overlong form, no surrogate, at most
`0x10FFFF`), `none` otherwise. -/
def utf8Decode : List Nat → Option Nat
  | [b1, b2] =>
    let v := (b1 - 0xC0) * 0x40 + (b2 - 0x80)
    if leadingOnes b1 = 2 && isContinuationOctet b2 && 0x80 ≤ v then some v else none
  | [b1, b2, b3] =>
    let v := (b1 - 0xE0) * 0x1000 + (b2 - 0x80) * 0x40 + (b3 - 0x80)
    if leadingOnes b1 = 3 && isContinuationOctet b2 && isContinuationOctet b3 && 0x800 ≤ v
        && !(0xD800 ≤ v && v ≤ 0xDFFF) then some v
    else none
  | [b1, b2, b3, b4] =>
    let v := (b1 - 0xF0) * 0x40000 + (b2 - 0x80) * 0x1000 + (b3 - 0x80) * 0x40 + (b4 - 0x80)
    if leadingOnes b1 = 4 && isContinuationOctet b2 && isContinuationOctet b3
        && isContinuationOctet b4 && 0x10000 ≤ v && v ≤ 0x10FFFF then some v
    else none
  | _ => none

/-- The loop of ECMA-262 `Decode(string, preserveEscapeSet)` with an empty
`preserveEscapeSet`, on the part of the string from index `k` on. Every
iteration consumes at least one code unit, so `fuel` at least the length of the
string is never exhausted (`decodeLoop_fuel`). -/
def decodeLoop : Nat → JsString → Except JsError JsString
  | _, [] => Except.ok []
  | 0, _ :: _ => Except.error uriMalformed
  | fuel + 1, c :: rest =>
    if c = codeUnit 37 then
      match rest with
      | h1 :: h2 :: rest1 =>
        match parseHexOctet h1 h2 with
        | none => Except.error uriMalformed
        | some b =>
          let n := leadingOnes b
          if n = 0 then
            match decodeLoop fuel rest1 with
            | Except.ok r => Except.ok (codeUnit b :: r)
            | Except.error e => Except.error e
          else if n = 1 ∨ 4 < n then Except.error uriMalformed
          else
            match readContinuation (n - 1) rest1 with
            | none => Except.error uriMalformed
            | some (octets, rest2) =>
              match utf8Decode (b :: octets) with
              | none => Except.error uriMalformed
              | some v =>
                match decodeLoop fuel rest2 with
                | Except.ok r => Except.ok (utf16EncodeCodePoint v ++ r)
                | Except.error e => Except.error e
      | _ => Except.error uriMalformed
    else
      match decodeLoop fuel rest with
      | Except.ok r => Except.ok (c :: r)
      | Except.error e => Except.error e

/-- ECMA-262 `decodeURIComponent`. -/
def decodeURIComponent (s : JsString) : Except JsError JsString := decodeLoop s.length s

/-! ## Numbers and JSON values -/

/-- A Number value, represented by what this program observes of it: the
string `Number::toString` gives (`"50"` for the literal `50.00`). The
conversions between decimal text and IEEE-754 doubles are not modelled. -/
structure JsNumber where
  toString : JsString
  deriving DecidableEq

/-- Whether the Number is finite: neither `NaN` nor an infinity. -/
def JsNumber.isFinite (n : JsNumber) : Bool :=
  !(n.toString = js "NaN" || n.toString = js "Infinity" || n.toString = js "-Infinity")

/-- The values `JSON.parse` produces and the client serializes. The members
of an object are kept in property enumeration order. -/
inductive JsValue where
  | null : JsValue
  | bool (b : Bool) : JsValue
  | number (n : JsNumber) : JsValue
  | string (s : JsString) : JsValue
  | array (items : List JsValue) : JsValue
  | object (members : List (JsString × JsValue)) : JsValue

/-- The decimal digits of `n`, most significant first; `fuel` bounds the
number of digits. -/
def decimalDigits : Nat → Nat → JsString
  | 0, _ => []
  | fuel + 1, n =>
    if n < 10 then [codeUnit (48 + n)]
    else decimalDigits fuel (n / 10) ++ [codeUnit (48 + n % 10)]

/-- The decimal numeral of a natural number, as `Number::toString` prints an
integer below `10^21` (the status of a response in a template literal). -/
def natToString (n : Nat) : JsString := decimalDigits (n + 1) n

/-- An array index: the canonical decimal form of an integer in `0 .. 2^32 - 2`. -/
def arrayIndex (key : JsString) : Option Nat :=
  match key with
  | [] => none
  | c :: rest =>
    if key.all (fun d => 48 ≤ d.val && d.val ≤ 57) && (c.val ≠ 48 || rest.isEmpty) then
      let n := key.foldl (fun acc d => 10 * acc + (d.val - 48)) 0
      if n ≤ 4294967294 then some n else none
    else none

/-- Adds a new own property in enumeration order (`OrdinaryOwnPropertyKeys`):
array indices ascending first, then the other keys in creation order. -/
def insertProperty {α : Type} (key : JsString) (value : α) :
    List (JsString × α) → List (JsString × α)
  | [] => [(key, value)]
  | (k, v) :: rest =>
    match arrayIndex key with
    | some i =>
      match arrayIndex k with
      | some j => if i < j then (key, value) :: (k, v) :: rest
                  else (k, v) :: insertProperty key value rest
      | none => (key, value) :: (k, v) :: rest
    | none => (k, v) :: insertProperty key value rest

/-- ECMA-262 `CreateDataProperty` on an ordinary object held as its list of
own properties: an existing key keeps its place and takes the new value. -/
def createDataProperty {α : Type} (key : JsString) (value : α)
    (members : List (JsString × α)) : List (JsString × α) :=
  if members.any (fun m => m.1 = key) then
    members.map (fun m => if m.1 = key then (m.1, value) else m)
  else insertProperty key value members

/-- The lower-case hexadecimal digit of a value below 16. -/
def hexDigitLower (d : Nat) : CodeUnit := if d < 10 then codeUnit (48 + d) else codeUnit (87 + d)

/-- ECMA-262 `UnicodeEscape`. -/
def unicodeEscape (c : CodeUnit) : JsString :=
  [codeUnit 92, codeUnit 117, hexDigitLower (c.val / 4096), hexDigitLower (c.val / 256 % 16),
    hexDigitLower (c.val / 16 % 16), hexDigitLower (c.val % 16)]

/-- The body of ECMA-262 `QuoteJSONString`, between the two quotation marks. -/
def quoteJSONChars : JsString → JsString
  | [] => []
  | c :: rest =>
    if c.val = 8 then js "\\b" ++ quoteJSONChars rest
    else if c.val = 9 then js "\\t" ++ quoteJSONChars rest
    else if c.val = 10 then js "\\n" ++ quoteJSONChars rest
    else if c.val = 12 then js "\\f" ++ quoteJSONChars rest
    else if c.val = 13 then js "\\r" ++ quoteJSONChars rest
    else if c.val = 34 then js "\\\"" ++ quoteJSONChars rest
    else if c.val = 92 then js "\\\\" ++ quoteJSONChars rest
    else if c.val < 0x20 then unicodeEscape c ++ quoteJSONChars rest
    else if isLeadingSurrogate c then
      match rest with
      | d :: rest2 =>
        if isTrailingSurrogate d then c :: d :: quoteJSONChars rest2
        else unicodeEscape c ++ quoteJSONChars (d :: rest2)
      | [] => unicodeEscape c
    else if isTrailingSurrogate c then unicodeEscape c ++ quoteJSONChars rest
    else c :: quoteJSONChars rest

/-- ECMA-262 `QuoteJSONString`. -/
def quoteJSONString (s : JsString) : JsString := js "\"" ++ quoteJSONChars s ++ js "\""

/-- The elements of a list joined with a separator. -/
def joinWith (sep : JsString) : List JsString → JsString
  | [] => []
  | [x] => x
  | x :: y :: rest => x ++ sep ++ joinWith sep (y :: rest)

/-- The text of a JSON array or object from the serialized parts (the end of
ECMA-262 `SerializeJSONArray` and `SerializeJSONObject`); `indent` is the
indentation inside the brackets, `stepback` the one outside. -/
def wrapJSON (opening closing gap indent stepback : JsString) (parts : List JsString) :
    JsString :=
  if parts.isEmpty then opening ++ closing
  else if gap.isEmpty then opening ++ joinWith (js ",") parts ++ closing
  else
    opening ++ js "\n" ++ indent ++ joinWith (js ",\n" ++ indent) parts ++ js "\n" ++ stepback
      ++ closing

mutual
/-- ECMA-262 `SerializeJSONProperty` on a value that is already there (no
`toJSON`, no replacer); `indent` is the current indentation. -/
def serializeJSONProperty (gap indent : JsString) : JsValue → JsString
  | JsValue.null => js "null"
  | JsValue.bool true => js "true"
  | JsValue.bool false => js "false"
  | JsValue.number n => if n.isFinite then n.toString else js "null"
  | JsValue.string s => quoteJSONString s
  | JsValue.array items =>
    wrapJSON (js "[") (js "]") gap (indent ++ gap) indent
      (serializeJSONElements gap (indent ++ gap) items)
  | JsValue.object members =>
    wrapJSON (js "\x7b") (js "\x7d") gap (indent ++ gap) indent
      (serializeJSONMembers gap (indent ++ gap) members)
/-- The serialized elements of an array. -/
def serializeJSONElements (gap indent : JsString) : List JsValue → List JsString
  | [] => []
  | v :: vs => serializeJSONProperty gap indent v :: serializeJSONElements gap indent vs
/-- The serialized members of an object: quoted key, colon, a space when there
is a gap, value. -/
def serializeJSONMembers (gap indent : JsString) : List (JsString × JsValue) → List JsString
  | [] => []
  | (k, v) :: ms =>
    (quoteJSONString k ++ js ":" ++ (if gap.isEmpty then [] else js " ")
        ++ serializeJSONProperty gap indent v)
      :: serializeJSONMembers gap indent ms
end

/-- The call `JSON.stringify(value, null, space)` with a numeric `space`; `0`
stands for the call with one argument. -/
def JSON.stringify (value : JsValue) (space : Nat) : JsString :=
  serializeJSONProperty (List.replicate (min 10 space) (codeUnit 32)) [] value

/-! ## The environment: `fetch` and the console -/

/-- A headers object: its own properties in enumeration order. -/
abbrev Headers := List (JsString × JsString)

/-- The arguments of one invocation of `fetch(url, init)`. -/
structure FetchCall where
  url : JsString
  method : Option JsString
  body : Option JsString
  headers : Headers
  deriving DecidableEq

/-- A resolved `fetch`: the status line, and what `await response.text()`
completes with: the body text, or the error the promise is rejected with when
reading the body fails (a connection that ends after the headers). -/
structure Response where
  status : Nat
  statusText : JsString
  text : Except JsError JsString
  deriving DecidableEq

/-- The getter `response.ok`: the status is in the range 200-299. -/
def Response.ok (r : Response) : Bool := 200 ≤ r.status && r.status ≤ 299

/-- The behaviour of the network: what the `i`-th invocation of `fetch`, made
with the given arguments, resolves to or is rejected with. -/
abbrev Network := Nat → FetchCall → Except JsError Response

/-- What a run has done so far: the invocations of `fetch` and the lines
written with `console.log`, both in order. -/
structure Trace where
  calls : List FetchCall
  console : List JsString
  deriving DecidableEq

/-- The empty trace at process start. -/
def Trace.empty : Trace := ⟨[], []⟩

/-- An effectful JavaScript computation: from the trace so far to a normal or
abrupt completion and the trace after it. -/
def JsM (α : Type) : Type := Trace → Except JsError α × Trace

instance : Monad JsM where
  pure a := fun t => (Except.ok a, t)
  bind m f := fun t =>
    match m t with
    | (Except.ok a, t1) => f a t1
    | (Except.error e, t1) => (Except.error e, t1)

/-- The statement `throw e`. -/
def JsM.throw {α : Type} (e : JsError) : JsM α := fun t => (Except.error e, t)

/-- The statement `try { body } catch (error) { handler }`. -/
def JsM.tryCatch {α : Type} (body : JsM α) (handler : JsError → JsM α) : JsM α := fun t =>
  match body t with
  | (Except.ok a, t1) => (Except.ok a, t1)
  | (Except.error e, t1) => handler e t1

/-- The completion of a built-in that has no effect on the trace. -/
def JsM.ofExcept {α : Type} (r : Except JsError α) : JsM α := fun t => (r, t)

/-- The expression `await fetch(url, init)`: the invocation is recorded and the
network decides the outcome. -/
def fetch (net : Network) (call : FetchCall) : JsM Response := fun t =>
  (net t.calls.length call, { t with calls := t.calls ++ [call] })

/-- The statement `console.log(line)`. -/
def consoleLog (line : JsString) : JsM Unit := fun t =>
  (Except.ok (), { t with console := t.console ++ [line] })

/-! ## `src/api/endpoints.js` -/

/-- The path of the authentication endpoint. -/
def ENDPOINTS.AUTH_TOKEN : JsString := js "/authToken"
/-- The path of the account list. -/
def ENDPOINTS.ACCOUNTS : JsString := js "/accounts"
/-- The path of the validation endpoint, without the identifier. -/
def ENDPOINTS.ACCOUNT_VALIDATE : JsString := js "/accounts/validate"
/-- The path of the balance endpoint, without the identifier. -/
def ENDPOINTS.ACCOUNT_BALANCE : JsString := js "/accounts/balance"
/-- The path of the transfer endpoint. -/
def ENDPOINTS.TRANSFER : JsString := js "/transfer"

/-- The claim of a read-only token. -/
def AUTH_CLAIMS.ENQUIRY : JsString := js "enquiry"
/-- The claim of a token that allows transfers. -/
def AUTH_CLAIMS.TRANSFER : JsString := js "transfer"

/-- The sample account that is valid. -/
def TEST_ACCOUNTS.VALID : JsString := js "ACC1000"
/-- The sample account that is invalid. -/
def TEST_ACCOUNTS.INVALID : JsString := js "ACC2000"
/-- The sample account that does not exist. -/
def TEST_ACCOUNTS.NON_EXISTENT : JsString := js "ACC9999"

/-! ## `src/api/BankingApiClient.js` -/

/-- The expression `s.replace(/\/$/, '')`: the pattern matches one `/` at the
very end of the string, and that one code unit is removed. -/
def replaceTrailingSlash : JsString → JsString
  | [] => []
  | [c] => if c = codeUnit 47 then [] else [c]
  | c :: d :: rest => c :: replaceTrailingSlash (d :: rest)

/-- An instance of the class `BankingApiClient`: its only field. -/
structure BankingApiClient where
  baseUrl : JsString
  deriving DecidableEq

/-- The constructor; `none` is the call without an argument, which takes the
default `'http://localhost:8123'`. -/
def BankingApiClient.new (baseUrl : Option JsString) : BankingApiClient :=
  { baseUrl := replaceTrailingSlash (baseUrl.getD (js "http://localhost:8123")) }

/-- The options object a method passes to `request`. -/
structure RequestOptions where
  method : Option JsString
  body : Option JsString
  headers : Option Headers

/-- The object literal with spread `{ 'Content-Type': 'application/json', ...headers }`. -/
def mergeHeaders (headers : Option Headers) : Headers :=
  (headers.getD []).foldl (fun acc h => createDataProperty h.1 h.2 acc)
    [(js "Content-Type", js "application/json")]

/-- The method `request(url, options)`: a rejected `fetch` is caught and thrown
again as `Error('Network error: ' + message)`. -/
def BankingApiClient.request (net : Network) (url : JsString) (options : RequestOptions) :
    JsM Response :=
  JsM.tryCatch
    (do
      let response ← fetch net
        { url := url, method := options.method, body := options.body,
          headers := mergeHeaders options.headers }
      return response)
    (fun error => JsM.throw ⟨ErrorKind.Error, js "Network error: " ++ error.message⟩)

/-- The method `getAuthToken(claim, username, password)`. -/
def BankingApiClient.getAuthToken (net : Network) (self : BankingApiClient)
    (claim username password : JsString) : JsM JsString := do
  let encoded ← JsM.ofExcept (encodeURIComponent claim)
  let url := self.baseUrl ++ ENDPOINTS.AUTH_TOKEN ++ js "?claim=" ++ encoded
  let response ← BankingApiClient.request net url
    { method := some (js "POST"),
      body := some (JSON.stringify
        (JsValue.object [(js "username", JsValue.string username),
          (js "password", JsValue.string password)]) 0),
      headers := none }
  let text ← JsM.ofExcept response.text
  if !response.ok then
    JsM.throw ⟨ErrorKind.Error, js "Auth failed: " ++ natToString response.status ++ js " "
      ++ response.statusText ++ js " - " ++ text⟩
  else
    return text

/-- The method `listAccounts()`. -/
def BankingApiClient.listAccounts (net : Network) (self : BankingApiClient) : JsM JsString := do
  let url := self.baseUrl ++ ENDPOINTS.ACCOUNTS
  let response ← BankingApiClient.request net url
    { method := some (js "GET"), body := none, headers := none }
  let text ← JsM.ofExcept response.text
  if !response.ok then
    JsM.throw ⟨ErrorKind.Error, js "Failed to list accounts: " ++ natToString response.status
      ++ js " " ++ response.statusText ++ js " - " ++ text⟩
  else
    return text

/-- The method `validateAccount(accountId)`: the text is returned whatever the
status is. -/
def BankingApiClient.validateAccount (net : Network) (self : BankingApiClient)
    (accountId : JsString) : JsM JsString := do
  let encoded ← JsM.ofExcept (encodeURIComponent accountId)
  let url := self.baseUrl ++ ENDPOINTS.ACCOUNT_VALIDATE ++ js "/" ++ encoded
  let response ← BankingApiClient.request net url
    { method := some (js "GET"), body := none, headers := none }
  let text ← JsM.ofExcept response.text
  return text

/-- The method `getAccountBalance(accountId)`. -/
def BankingApiClient.getAccountBalance (net : Network) (self : BankingApiClient)
    (accountId : JsString) : JsM JsString := do
  let encoded ← JsM.ofExcept (encodeURIComponent accountId)
  let url := self.baseUrl ++ ENDPOINTS.ACCOUNT_BALANCE ++ js "/" ++ encoded
  let response ← BankingApiClient.request net url
    { method := some (js "GET"), body := none, headers := none }
  let text ← JsM.ofExcept response.text
  if !response.ok then
    JsM.throw ⟨ErrorKind.Error, js "Failed to get balance: " ++ natToString response.status
      ++ js " " ++ response.statusText ++ js " - " ++ text⟩
  else
    return text

/-- The method `transferFunds(fromAccount, toAccount, amount)`: the text is
returned whatever the status is. -/
def BankingApiClient.transferFunds (net : Network) (self : BankingApiClient)
    (fromAccount toAccount : JsString) (amount : JsNumber) : JsM JsString := do
  let url := self.baseUrl ++ ENDPOINTS.TRANSFER
  let response ← BankingApiClient.request net url
    { method := some (js "POST"),
      body := some (JSON.stringify
        (JsValue.object [(js "fromAccount", JsValue.string fromAccount),
          (js "toAccount", JsValue.string toAccount), (js "amount", JsValue.number amount)]) 0),
      headers := none }
  let text ← JsM.ofExcept response.text
  return text

/-! ## `JSON.parse` (ECMA-262 25.5.1, grammar of ECMA-404) -/

/-- The `SyntaxError` of `JSON.parse`; the text of the message is left to the
engine and is not observed by the program. -/
def jsonSyntaxError : JsError := ⟨ErrorKind.SyntaxError, js "Unexpected token in JSON"⟩

/-- JSON white space: tab, line feed, carriage return, space. -/
def isJSONWhiteSpace (c : CodeUnit) : Bool :=
  c.val = 9 || c.val = 10 || c.val = 13 || c.val = 32

/-- The input without its leading white space. -/
def skipWhiteSpace : JsString → JsString
  | [] => []
  | c :: rest => if isJSONWhiteSpace c then skipWhiteSpace rest else c :: rest

/-- A decimal digit. -/
def isDecimalDigit (c : CodeUnit) : Bool := 48 ≤ c.val && c.val ≤ 57

/-- The longest run of decimal digits at the start of the input, and the rest. -/
def takeDigits : JsString → JsString × JsString
  | [] => ([], [])
  | c :: rest =>
    if isDecimalDigit c then ((takeDigits rest).1.cons c, (takeDigits rest).2) else ([], c :: rest)

/-- The code unit a single-character escape `\c` stands for. -/
def simpleEscape (c : CodeUnit) : Option CodeUnit :=
  if c.val = 34 then some (codeUnit 34)
  else if c.val = 92 then some (codeUnit 92)
  else if c.val = 47 then some (codeUnit 47)
  else if c.val = 98 then some (codeUnit 8)
  else if c.val = 102 then some (codeUnit 12)
  else if c.val = 110 then some (codeUnit 10)
  else if c.val = 114 then some (codeUnit 13)
  else if c.val = 116 then some (codeUnit 9)
  else none

/-- The code unit of the four hexadecimal digits of an escape `\uXXXX`. -/
def parseHex4 (h1 h2 h3 h4 : CodeUnit) : Option CodeUnit :=
  match hexValue h1, hexValue h2, hexValue h3, hexValue h4 with
  | some a, some b, some c, some d => some (codeUnit (4096 * a + 256 * b + 16 * c + d))
  | _, _, _, _ => none

/-- The characters of a JSON string after its opening quotation mark: the
string value up to the closing quotation mark, and the rest of the input.
A control character below U+0020 must be escaped. -/
def parseJSONString : JsString → Option (JsString × JsString)
  | [] => none
  | c :: rest =>
    if c.val = 34 then some ([], rest)
    else if c.val = 92 then
      match rest with
      | [] => none
      | e :: rest2 =>
        if e.val = 117 then
          match rest2 with
          | h1 :: h2 :: h3 :: h4 :: rest3 =>
            match parseHex4 h1 h2 h3 h4 with
            | some u =>
              match parseJSONString rest3 with
              | some (s, r) => some (u :: s, r)
              | none => none
            | none => none
          | _ => none
        else
          match simpleEscape e with
          | some u =>
            match parseJSONString rest2 with
            | some (s, r) => some (u :: s, r)
            | none => none
          | none => none
    else if c.val < 0x20 then none
    else
      match parseJSONString rest with
      | some (s, r) => some (c :: s, r)
      | none => none

/-- The optional `-` of a JSON number, and the rest of the input. -/
def numberSign (s : JsString) : JsString × JsString :=
  match s with
  | c :: rest => if c.val = 45 then ([c], rest) else ([], s)
  | [] => ([], s)

/-- The integer part of a JSON number: `0`, or a digit from 1 to 9 followed
by digits. -/
def numberInteger (s : JsString) : Option (JsString × JsString) :=
  match s with
  | c :: rest =>
    if c.val = 48 then some ([c], rest)
    else if isDecimalDigit c then some (c :: (takeDigits rest).1, (takeDigits rest).2)
    else none
  | [] => none

/-- The optional fraction of a JSON number: `.` followed by at least one digit. -/
def numberFraction (s : JsString) : Option (JsString × JsString) :=
  match s with
  | c :: rest =>
    if c.val = 46 then
      if (takeDigits rest).1.isEmpty then none
      else some (c :: (takeDigits rest).1, (takeDigits rest).2)
    else some ([], s)
  | [] => some ([], s)

/-- The optional `+` or `-` of an exponent, and the rest of the input. -/
def exponentSign (s : JsString) : JsString × JsString :=
  match s with
  | d :: rest => if d.val = 43 || d.val = 45 then ([d], rest) else ([], s)
  | [] => ([], s)

/-- The optional exponent of a JSON number: `e` or `E`, an optional sign, at
least one digit. -/
def numberExponent (s : JsString) : Option (JsString × JsString) :=
  match s with
  | c :: rest =>
    if c.val = 101 || c.val = 69 then
      if (takeDigits (exponentSign rest).2).1.isEmpty then none
      else
        some (c :: (exponentSign rest).1 ++ (takeDigits (exponentSign rest).2).1,
          (takeDigits (exponentSign rest).2).2)
    else some ([], s)
  | [] => some ([], s)

/-- The text of a JSON number at the start of the input (an optional `-`, an
integer part without a leading zero, an optional fraction, an optional
exponent), and the rest of the input. -/
def parseJSONNumber (s : JsString) : Option (JsString × JsString) :=
  match numberInteger (numberSign s).2 with
  | none => none
  | some (intText, afterInt) =>
    match numberFraction afterInt with
    | none => none
    | some (fracText, afterFrac) =>
      match numberExponent afterFrac with
      | none => none
      | some (expText, afterExp) =>
        some ((numberSign s).1 ++ intText ++ fracText ++ expText, afterExp)

/-- The input after the given literal text, when the input starts with it. -/
def stripLiteral (literal s : JsString) : Option JsString :=
  if literal.isPrefixOf s then some (s.drop literal.length) else none

/-- A JSON value that is not an array or an object, given its first code unit
`c` and the input after it: a string, `true`, `false`, `null` or a number.
`toNumber` is the conversion of the text of a number to a Number. -/
def parseJSONScalar (toNumber : JsString → JsNumber) (c : CodeUnit) (rest : JsString) :
    Option (JsValue × JsString) :=
  if c.val = 34 then
    match parseJSONString rest with
    | some (str, r) => some (JsValue.string str, r)
    | none => none
  else if c.val = 116 then
    match stripLiteral (js "true") (c :: rest) with
    | some r => some (JsValue.bool true, r)
    | none => none
  else if c.val = 102 then
    match stripLiteral (js "false") (c :: rest) with
    | some r => some (JsValue.bool false, r)
    | none => none
  else if c.val = 110 then
    match stripLiteral (js "null") (c :: rest) with
    | some r => some (JsValue.null, r)
    | none => none
  else
    match parseJSONNumber (c :: rest) with
    | some (text, r) => some (JsValue.number (toNumber text), r)
    | none => none

mutual
/-- One JSON value at the start of the input (after white space), and the
rest of the input. The three functions call each other with one unit of `fuel`
less; between two calls of the same function at least one code unit is
consumed, so twice the length of the input, plus two, is never exhausted
(`parseJSONValue_fuel`). -/
def parseJSONValue (toNumber : JsString → JsNumber) :
    Nat → JsString → Option (JsValue × JsString)
  | 0, _ => none
  | fuel + 1, s =>
    match skipWhiteSpace s with
    | [] => none
    | c :: rest =>
      if c.val = 91 then
        match skipWhiteSpace rest with
        | d :: rest2 =>
          if d.val = 93 then some (JsValue.array [], rest2)
          else
            match parseJSONElements toNumber fuel rest with
            | some (items, r) => some (JsValue.array items, r)
            | none => none
        | [] => none
      else if c.val = 123 then
        match skipWhiteSpace rest with
        | d :: rest2 =>
          if d.val = 125 then some (JsValue.object [], rest2)
          else
            match parseJSONMembers toNumber fuel [] rest with
            | some (members, r) => some (JsValue.object members, r)
            | none => none
        | [] => none
      else parseJSONScalar toNumber c rest
/-- The elements of a non-empty array after `[`, up to and including `]`. -/
def parseJSONElements (toNumber : JsString → JsNumber) :
    Nat → JsString → Option (List JsValue × JsString)
  | 0, _ => none
  | fuel + 1, s =>
    match parseJSONValue toNumber fuel s with
    | none => none
    | some (v, r) =>
      match skipWhiteSpace r with
      | c :: rest =>
        if c.val = 44 then
          match parseJSONElements toNumber fuel rest with
          | some (vs, r2) => some (v :: vs, r2)
          | none => none
        else if c.val = 93 then some ([v], rest)
        else none
      | [] => none
/-- The members of a non-empty object after `{`, up to and including `}`;
each member is added to the object built so far with `CreateDataProperty`. -/
def parseJSONMembers (toNumber : JsString → JsNumber) :
    Nat → List (JsString × JsValue) → JsString → Option (List (JsString × JsValue) × JsString)
  | 0, _, _ => none
  | fuel + 1, members, s =>
    match skipWhiteSpace s with
    | q :: afterQuote =>
      if q.val = 34 then
        match parseJSONString afterQuote with
        | none => none
        | some (key, afterKey) =>
          match skipWhiteSpace afterKey with
          | colon :: afterColon =>
            if colon.val = 58 then
              match parseJSONValue toNumber fuel afterColon with
              | none => none
              | some (v, r) =>
                match skipWhiteSpace r with
                | c :: rest =>
                  if c.val = 44 then
                    parseJSONMembers toNumber fuel (createDataProperty key v members) rest
                  else if c.val = 125 then some (createDataProperty key v members, rest)
                  else none
                | [] => none
            else none
          | [] => none
      else none
    | [] => none
end

/-- The call `JSON.parse(text)` (no reviver): the value of the text when the
whole of it is one JSON value between optional white space, a `SyntaxError`
otherwise. -/
def JSON.parse (toNumber : JsString → JsNumber) (text : JsString) : Except JsError JsValue :=
  match parseJSONValue toNumber (2 * text.length + 2) text with
  | some (value, rest) =>
    if (skipWhiteSpace rest).isEmpty then Except.ok value else Except.error jsonSyntaxError
  | none => Except.error jsonSyntaxError

/-! ## `src/utils/formatters.js` -/

/-- The function `formatJSON(data)`: a string is parsed first; when
`JSON.parse` throws, `data` is still the string and `String(data)` is returned. -/
def formatJSON (toNumber : JsString → JsNumber) (data : JsValue) : JsString :=
  match data with
  | JsValue.string text =>
    match JSON.parse toNumber text with
    | Except.ok parsed => JSON.stringify parsed 2
    | Except.error _ => text
  | other => JSON.stringify other 2

/-! ## `src/utils/logger.js` -/

/-- The function `printSection(title)`. -/
def printSection (title : JsString) : JsM Unit := do
  consoleLog (js "")
  consoleLog (js "==========================================")
  consoleLog title
  consoleLog (js "==========================================")

/-- The function `printTest(name)`. -/
def printTest (name : JsString) : JsM Unit := do
  consoleLog (js "")
  consoleLog (js "--- " ++ name ++ js " ---")

/-- The function `log(message)`. -/
def log (message : JsString) : JsM Unit := consoleLog message

/-- The function `logEmpty()`. -/
def logEmpty : JsM Unit := consoleLog (js "")

/-! ## `src/demo.js` -/

/-- The constant `BASE_URL = process.env.BASE_URL || 'http://localhost:8123'`;
the argument is the environment variable, `none` when it is not set. An empty
string is falsy and gives the default as well. -/
def BASE_URL (env : Option JsString) : JsString :=
  match env with
  | some value => if value.isEmpty then js "http://localhost:8123" else value
  | none => js "http://localhost:8123"

/-- The function `runTest(testName, testFunction)`. -/
def runTest (testName : JsString) (testFunction : JsM Unit) : JsM Unit :=
  JsM.tryCatch testFunction
    (fun error => log (js "Error in " ++ testName ++ js ": " ++ error.message))

/-- The function `runDemo()`. -/
def runDemo (net : Network) (env : Option JsString) : JsM Unit := do
  let client := BankingApiClient.new (some (BASE_URL env))
  log (js "=== Core Banking API Demo - No JQ Version ===")
  log (js "Base URL: " ++ BASE_URL env)
  log (js "Testing key endpoints without jq dependency...")
  logEmpty
  printSection (js "1. AUTHENTICATION TESTS WITH SCOPES")
  printTest (js "1.1 Enquiry token (default scope)")
  runTest (js "1.1 Enquiry token") (do
    log (js "Getting enquiry token...")
    let response ← BankingApiClient.getAuthToken net client AUTH_CLAIMS.ENQUIRY (js "alice")
      (js "any")
    log response)
  printTest (js "1.2 Transfer token (maximum scope)")
  runTest (js "1.2 Transfer token") (do
    log (js "Getting transfer token...")
    let response ← BankingApiClient.getAuthToken net client AUTH_CLAIMS.TRANSFER (js "bob")
      (js "secret")
    log response)
  printSection (js "2. ACCOUNT OPERATIONS")
  printTest (js "2.1 List all accounts")
  runTest (js "2.1 List accounts") (do
    log (js "Getting all accounts...")
    let response ← BankingApiClient.listAccounts net client
    log response)
  printTest (js "2.2 Validate accounts")
  runTest (js "2.2 Validate accounts") (do
    JsM.tryCatch
      (do
        let acc1000 ← BankingApiClient.validateAccount net client TEST_ACCOUNTS.VALID
        log (js "ACC1000 (valid): " ++ acc1000))
      (fun error => log (js "ACC1000 (valid): Error - " ++ error.message))
    JsM.tryCatch
      (do
        let acc2000 ← BankingApiClient.validateAccount net client TEST_ACCOUNTS.INVALID
        log (js "ACC2000 (invalid): " ++ acc2000))
      (fun error => log (js "ACC2000 (invalid): Error - " ++ error.message))
    JsM.tryCatch
      (do
        let acc9999 ← BankingApiClient.validateAccount net client TEST_ACCOUNTS.NON_EXISTENT
        log (js "ACC9999 (non-existent): " ++ acc9999))
      (fun error => log (js "ACC9999 (non-existent): Error - " ++ error.message)))
  printTest (js "2.3 Get account balance")
  runTest (js "2.3 Get balance") (do
    log (js "ACC1000 balance:")
    let response ← BankingApiClient.getAccountBalance net client TEST_ACCOUNTS.VALID
    log response)
  printSection (js "3. TRANSFER TESTS")
  printTest (js "3.1 Basic transfer (no auth)")
  runTest (js "3.1 Basic transfer") (do
    log (js "Transfer without authentication:")
    let response ← BankingApiClient.transferFunds net client (js "ACC1000") (js "ACC1001")
      ⟨js "50"⟩
    log response)
  printTest (js "3.2 Invalid transfer")
  runTest (js "3.2 Invalid transfer") (do
    log (js "Transfer with invalid account:")
    let response ← BankingApiClient.transferFunds net client (js "ACC2000") (js "ACC1001")
      ⟨js "50"⟩
    log response)
  printSection (js "4. SUMMARY")
  log (js "✅ Authentication: Scope-based token generation working")
  log (js "✅ Account Operations: Validation and balance checks working")
  log (js "✅ Transfer Operations: Basic transfers working")
  log (js "✅ Error Handling: Invalid requests properly handled")
  logEmpty
  log (js "🎉 Demo completed! All core functionality verified.")
  log (js "💡 Install jq for the full demo experience with JSON parsing.")
  log (js "📋 See JQ_INSTALLATION.md for installation instructions.")

/-- The last statement of the script, `runDemo().catch(...)`, as the exit
status of the process: 0 when `runDemo` completes normally, 1 from
`process.exit(1)` in the handler (what `console.error` prints is not modelled). -/
def demoScript (net : Network) (env : Option JsString) : Nat × Trace :=
  match runDemo net env Trace.empty with
  | (Except.ok _, t) => (0, t)
  | (Except.error _, t) => (1, t)

/-! ## The outcome of a method and the expected run of the demo -/

/-- What a client method completes with, given what its `fetch` completed
with: a rejected `fetch` is a network error; when reading the body fails, the
error of the read; a response that is not ok is an error with the given label
for the three methods that check `response.ok` (`none` for `validateAccount`
and `transferFunds`); otherwise the body text. -/
def methodOutcome (label : Option JsString) (reply : Except JsError Response) :
    Except JsError JsString :=
  match reply with
  | Except.error e => Except.error ⟨ErrorKind.Error, js "Network error: " ++ e.message⟩
  | Except.ok r =>
    match r.text with
    | Except.error e => Except.error e
    | Except.ok text =>
      match label with
      | some l =>
        if r.ok then Except.ok text
        else Except.error ⟨ErrorKind.Error, l ++ natToString r.status ++ js " " ++ r.statusText
          ++ js " - " ++ text⟩
      | none => Except.ok text

/-- The nine requests of the demo, in order, for a client with the given
`baseUrl`. -/
def demoRequest (baseUrl : JsString) : Nat → FetchCall
  | 0 => ⟨baseUrl ++ js "/authToken?claim=enquiry", some (js "POST"),
      some (js "\x7b\"username\":\"alice\",\"password\":\"any\"\x7d"),
      [(js "Content-Type", js "application/json")]⟩
  | 1 => ⟨baseUrl ++ js "/authToken?claim=transfer", some (js "POST"),
      some (js "\x7b\"username\":\"bob\",\"password\":\"secret\"\x7d"),
      [(js "Content-Type", js "application/json")]⟩
  | 2 => ⟨baseUrl ++ js "/accounts", some (js "GET"), none,
      [(js "Content-Type", js "application/json")]⟩
  | 3 => ⟨baseUrl ++ js "/accounts/validate/ACC1000", some (js "GET"), none,
      [(js "Content-Type", js "application/json")]⟩
  | 4 => ⟨baseUrl ++ js "/accounts/validate/ACC2000", some (js "GET"), none,
      [(js "Content-Type", js "application/json")]⟩
  | 5 => ⟨baseUrl ++ js "/accounts/validate/ACC9999", some (js "GET"), none,
      [(js "Content-Type", js "application/json")]⟩
  | 6 => ⟨baseUrl ++ js "/accounts/balance/ACC1000", some (js "GET"), none,
      [(js "Content-Type", js "application/json")]⟩
  | 7 => ⟨baseUrl ++ js "/transfer", some (js "POST"),
      some (js "\x7b\"fromAccount\":\"ACC1000\",\"toAccount\":\"ACC1001\",\"amount\":50\x7d"),
      [(js "Content-Type", js "application/json")]⟩
  | _ => ⟨baseUrl ++ js "/transfer", some (js "POST"),
      some (js "\x7b\"fromAccount\":\"ACC2000\",\"toAccount\":\"ACC1001\",\"amount\":50\x7d"),
      [(js "Content-Type", js "application/json")]⟩

/-- The label of the error the method of the `i`-th request throws on a
response that is not ok; `none` for `validateAccount` and `transferFunds`. -/
def demoLabel : Nat → Option JsString
  | 0 => some (js "Auth failed: ")
  | 1 => some (js "Auth failed: ")
  | 2 => some (js "Failed to list accounts: ")
  | 6 => some (js "Failed to get balance: ")
  | _ => none

/-- The outcome of the `i`-th client call of the demo on a given network. -/
def demoOutcome (net : Network) (baseUrl : JsString) (i : Nat) : Except JsError JsString :=
  methodOutcome (demoLabel i) (net i (demoRequest baseUrl i))

/-- The line a test wrapped in `runTest` logs after its client call: the
response, or `Error in <test name>: <message>` for an error caught by `runTest`. -/
def testLine (testName : JsString) (outcome : Except JsError JsString) : JsString :=
  match outcome with
  | Except.ok response => response
  | Except.error error => js "Error in " ++ testName ++ js ": " ++ error.message

/-- The line test 2.2 logs for one account: the response after the label, or
`<label>Error - <message>` for an error caught by the handler inside the test. -/
def validateLine (label : JsString) (outcome : Except JsError JsString) : JsString :=
  match outcome with
  | Except.ok response => label ++ response
  | Except.error error => label ++ js "Error - " ++ error.message

/-- The lines the demo writes, given the base URL it shows and the outcomes
of its nine client calls. -/
def demoConsole (shownUrl : JsString) (outcome : Nat → Except JsError JsString) :
    List JsString :=
  [js "=== Core Banking API Demo - No JQ Version ===",
    js "Base URL: " ++ shownUrl,
    js "Testing key endpoints without jq dependency...",
    js "",
    js "", js "==========================================",
    js "1. AUTHENTICATION TESTS WITH SCOPES", js "==========================================",
    js "", js "--- 1.1 Enquiry token (default scope) ---",
    js "Getting enquiry token...",
    testLine (js "1.1 Enquiry token") (outcome 0),
    js "", js "--- 1.2 Transfer token (maximum scope) ---",
    js "Getting transfer token...",
    testLine (js "1.2 Transfer token") (outcome 1),
    js "", js "==========================================",
    js "2. ACCOUNT OPERATIONS", js "==========================================",
    js "", js "--- 2.1 List all accounts ---",
    js "Getting all accounts...",
    testLine (js "2.1 List accounts") (outcome 2),
    js "", js "--- 2.2 Validate accounts ---",
    validateLine (js "ACC1000 (valid): ") (outcome 3),
    validateLine (js "ACC2000 (invalid): ") (outcome 4),
    validateLine (js "ACC9999 (non-existent): ") (outcome 5),
    js "", js "--- 2.3 Get account balance ---",
    js "ACC1000 balance:",
    testLine (js "2.3 Get balance") (outcome 6),
    js "", js "==========================================",
    js "3. TRANSFER TESTS", js "==========================================",
    js "", js "--- 3.1 Basic transfer (no auth) ---",
    js "Transfer without authentication:",
    testLine (js "3.1 Basic transfer") (outcome 7),
    js "", js "--- 3.2 Invalid transfer ---",
    js "Transfer with invalid account:",
    testLine (js "3.2 Invalid transfer") (outcome 8),
    js "", js "==========================================",
    js "4. SUMMARY", js "==========================================",
    js "✅ Authentication: Scope-based token generation working",
    js "✅ Account Operations: Validation and balance checks working",
    js "✅ Transfer Operations: Basic transfers working",
    js "✅ Error Handling: Invalid requests properly handled",
    js "",
    js "🎉 Demo completed! All core functionality verified.",
    js "💡 Install jq for the full demo experience with JSON parsing.",
    js "📋 See JQ_INSTALLATION.md for installation instructions."]

/-! # Theorems -/

/-! ## The embedded built-ins on known inputs -/

/-- The model of `encodeURIComponent` on inputs whose results are known. -/
theorem encodeURIComponent_examples :
    encodeURIComponent (js "a/b c?é€😀")
      = Except.ok (js "a%2Fb%20c%3F%C3%A9%E2%82%AC%F0%9F%98%80") ∧
    encodeURIComponent (js "AZaz09-_.!~*'()") = Except.ok (js "AZaz09-_.!~*'()") ∧
    encodeURIComponent [codeUnit 0xD800] = Except.error uriMalformed ∧
    encodeURIComponent [codeUnit 0xDC00, codeUnit 0xD800] = Except.error uriMalformed := by
  decide

/-- The model of `decodeURIComponent` on inputs whose results are known:
lower-case hexadecimal digits are read, an overlong form, an encoded
surrogate, a code point above U+10FFFF and a truncated escape throw. -/
theorem decodeURIComponent_examples :
    decodeURIComponent (js "a%2Fb%20c%3f%C3%A9%E2%82%AC%F0%9F%98%80%7e")
      = Except.ok (js "a/b c?é€😀~") ∧
    decodeURIComponent (js "%F4%8F%BF%BF") = Except.ok [codeUnit 0xDBFF, codeUnit 0xDFFF] ∧
    decodeURIComponent (js "%C0%80") = Except.error uriMalformed ∧
    decodeURIComponent (js "%ED%A0%80") = Except.error uriMalformed ∧
    decodeURIComponent (js "%F4%90%80%80") = Except.error uriMalformed ∧
    decodeURIComponent (js "%E2%82") = Except.error uriMalformed ∧
    decodeURIComponent (js "%") = Except.error uriMalformed := by
  decide

/-! ## Percent-encoding round trip -/

theorem codeUnit_val (c : CodeUnit) : codeUnit c.val = c := by
  apply Fin.ext
  simp [codeUnit, Nat.mod_eq_of_lt c.isLt]

theorem hexValue_hexDigitUpper (d : Nat) (hd : d < 16) : hexValue (hexDigitUpper d) = some d := by
  interval_cases d <;> decide

theorem parseHexOctet_escape (b : Nat) (hb : b < 256) :
    parseHexOctet (hexDigitUpper (b / 16)) (hexDigitUpper (b % 16)) = some b := by
  have h1 : b / 16 < 16 := by omega
  have h2 : b % 16 < 16 := by omega
  simp only [parseHexOctet, hexValue_hexDigitUpper _ h1, hexValue_hexDigitUpper _ h2]
  congr 1
  omega

theorem readContinuation_escapes (bs : List Nat) (hbs : ∀ b ∈ bs, b < 256) (r : JsString) :
    readContinuation bs.length (bs.flatMap percentEscape ++ r) = some (bs, r) := by
  induction bs with
  | nil => simp [readContinuation]
  | cons b bs ih =>
    have hb : b < 256 := hbs b (by simp)
    have ih2 := ih (fun x hx => hbs x (by simp [hx]))
    show readContinuation (bs.length + 1) (codeUnit 37 :: hexDigitUpper (b / 16) ::
      hexDigitUpper (b % 16) :: (bs.flatMap percentEscape ++ r)) = some (b :: bs, r)
    simp only [readContinuation, parseHexOctet_escape b hb, if_true, ih2]

theorem decodeLoop_escape_ascii (fuel b : Nat) (hb : b < 0x80) (r : JsString) :
    decodeLoop (fuel + 1) (percentEscape b ++ r) =
      match decodeLoop fuel r with
      | Except.ok x => Except.ok (codeUnit b :: x)
      | Except.error e => Except.error e := by
  show decodeLoop (fuel + 1) (codeUnit 37 :: hexDigitUpper (b / 16) ::
      hexDigitUpper (b % 16) :: r) = _
  have hl : leadingOnes b = 0 := by simp [leadingOnes, hb]
  simp only [decodeLoop, parseHexOctet_escape b (by omega), if_true, hl]

theorem decodeLoop_escape_multi (fuel b : Nat) (bs : List Nat) (v : Nat) (r : JsString)
    (hb : b < 256) (hbs : ∀ x ∈ bs, x < 256) (hn : leadingOnes b = bs.length + 1)
    (hlen : 1 ≤ bs.length ∧ bs.length ≤ 3) (hv : utf8Decode (b :: bs) = some v) :
    decodeLoop (fuel + 1) ((b :: bs).flatMap percentEscape ++ r) =
      match decodeLoop fuel r with
      | Except.ok x => Except.ok (utf16EncodeCodePoint v ++ x)
      | Except.error e => Except.error e := by
  show decodeLoop (fuel + 1) (codeUnit 37 :: hexDigitUpper (b / 16) ::
      hexDigitUpper (b % 16) :: (bs.flatMap percentEscape ++ r)) = _
  have h0 : ¬ (bs.length + 1 = 0) := by omega
  have h1 : ¬ (bs.length + 1 = 1 ∨ 4 < bs.length + 1) := by omega
  simp only [decodeLoop, parseHexOctet_escape b hb, if_true, hn, h0, h1, if_false,
    Nat.add_sub_cancel, readContinuation_escapes bs hbs r, hv]

theorem leadingOnes_two (b : Nat) (h1 : 0xC0 ≤ b) (h2 : b < 0xE0) : leadingOnes b = 2 := by
  have a1 : ¬ (b < 0x80) := by omega
  have a2 : ¬ (b < 0xC0) := by omega
  simp [leadingOnes, a1, a2, h2]

theorem leadingOnes_three (b : Nat) (h1 : 0xE0 ≤ b) (h2 : b < 0xF0) : leadingOnes b = 3 := by
  have a1 : ¬ (b < 0x80) := by omega
  have a2 : ¬ (b < 0xC0) := by omega
  have a3 : ¬ (b < 0xE0) := by omega
  simp [leadingOnes, a1, a2, a3, h2]

theorem leadingOnes_four (b : Nat) (h1 : 0xF0 ≤ b) (h2 : b < 0xF8) : leadingOnes b = 4 := by
  have a1 : ¬ (b < 0x80) := by omega
  have a2 : ¬ (b < 0xC0) := by omega
  have a3 : ¬ (b < 0xE0) := by omega
  have a4 : ¬ (b < 0xF0) := by omega
  simp [leadingOnes, a1, a2, a3, a4, h2]

theorem utf8Decode_two (b1 b2 v : Nat) (hl : leadingOnes b1 = 2) (hc2 : 0x80 ≤ b2 ∧ b2 ≤ 0xBF)
    (hv : (b1 - 0xC0) * 0x40 + (b2 - 0x80) = v) (hr : 0x80 ≤ v) :
    utf8Decode [b1, b2] = some v := by
  simp [utf8Decode, isContinuationOctet, hl, hc2, hv, hr]

theorem utf8Decode_three (b1 b2 b3 v : Nat) (hl : leadingOnes b1 = 3)
    (hc2 : 0x80 ≤ b2 ∧ b2 ≤ 0xBF) (hc3 : 0x80 ≤ b3 ∧ b3 ≤ 0xBF)
    (hv : (b1 - 0xE0) * 0x1000 + (b2 - 0x80) * 0x40 + (b3 - 0x80) = v) (hr : 0x800 ≤ v)
    (hs : ¬ (0xD800 ≤ v ∧ v ≤ 0xDFFF)) :
    utf8Decode [b1, b2, b3] = some v := by
  have hs2 : 0xD800 ≤ v → 0xDFFF < v := by omega
  simp [utf8Decode, isContinuationOctet, hl, hc2, hc3, hv, hr]
  exact hs2

theorem utf8Decode_four (b1 b2 b3 b4 v : Nat) (hl : leadingOnes b1 = 4)
    (hc2 : 0x80 ≤ b2 ∧ b2 ≤ 0xBF) (hc3 : 0x80 ≤ b3 ∧ b3 ≤ 0xBF) (hc4 : 0x80 ≤ b4 ∧ b4 ≤ 0xBF)
    (hv : (b1 - 0xF0) * 0x40000 + (b2 - 0x80) * 0x1000 + (b3 - 0x80) * 0x40 + (b4 - 0x80) = v)
    (hr : 0x10000 ≤ v ∧ v ≤ 0x10FFFF) :
    utf8Decode [b1, b2, b3, b4] = some v := by
  simp [utf8Decode, isContinuationOctet, hl, hc2, hc3, hc4, hv, hr]

theorem utf8_roundtrip (cp : Nat) (h1 : 0x80 ≤ cp) (h2 : cp < 0x110000)
    (h3 : ¬ (0xD800 ≤ cp ∧ cp ≤ 0xDFFF)) :
    ∃ b bs, utf8Encode cp = b :: bs ∧ b < 256 ∧ (∀ x ∈ bs, x < 256) ∧
      leadingOnes b = bs.length + 1 ∧ (1 ≤ bs.length ∧ bs.length ≤ 3) ∧
      utf8Decode (b :: bs) = some cp := by
  have n1 : ¬ (cp < 0x80) := by omega
  by_cases c1 : cp < 0x800
  · refine ⟨0xC0 + cp / 0x40, [0x80 + cp % 0x40], ?_, by omega, ?_, ?_, by simp, ?_⟩
    · simp [utf8Encode, c1]; omega
    · intro x hx; simp at hx; omega
    · exact leadingOnes_two _ (by omega) (by omega)
    · exact utf8Decode_two _ _ _ (leadingOnes_two _ (by omega) (by omega)) (by omega)
        (by omega) h1
  · by_cases c2 : cp < 0x10000
    · refine ⟨0xE0 + cp / 0x1000, [0x80 + cp / 0x40 % 0x40, 0x80 + cp % 0x40], ?_, by omega,
        ?_, ?_, by simp, ?_⟩
      · simp [utf8Encode, c1, c2]; omega
      · intro x hx; simp at hx; omega
      · exact leadingOnes_three _ (by omega) (by omega)
      · exact utf8Decode_three _ _ _ _ (leadingOnes_three _ (by omega) (by omega)) (by omega)
          (by omega) (by omega) (by omega) h3
    · refine ⟨0xF0 + cp / 0x40000,
        [0x80 + cp / 0x1000 % 0x40, 0x80 + cp / 0x40 % 0x40, 0x80 + cp % 0x40], ?_, by omega,
        ?_, ?_, by simp, ?_⟩
      · simp [utf8Encode, c1, c2]; omega
      · intro x hx; simp at hx; omega
      · exact leadingOnes_four _ (by omega) (by omega)
      · exact utf8Decode_four _ _ _ _ _ (leadingOnes_four _ (by omega) (by omega)) (by omega)
          (by omega) (by omega) (by omega) (by omega)

theorem decodeLoop_escapeCodePoint (fuel cp : Nat) (r : JsString) (h2 : cp < 0x110000)
    (h3 : ¬ (0xD800 ≤ cp ∧ cp ≤ 0xDFFF)) :
    decodeLoop (fuel + 1) (escapeCodePoint cp ++ r) =
      match decodeLoop fuel r with
      | Except.ok x => Except.ok (utf16EncodeCodePoint cp ++ x)
      | Except.error e => Except.error e := by
  by_cases h1 : cp < 0x80
  · have e1 : escapeCodePoint cp = percentEscape cp := by
      simp [escapeCodePoint, utf8Encode, h1]
    have e2 : utf16EncodeCodePoint cp = [codeUnit cp] := by
      have : cp ≤ 0xFFFF := by omega
      simp [utf16EncodeCodePoint, this]
    rw [e1, e2, decodeLoop_escape_ascii fuel cp h1 r]
    rfl
  · obtain ⟨b, bs, he, hb, hbs, hn, hlen, hv⟩ := utf8_roundtrip cp (by omega) h2 h3
    rw [escapeCodePoint, he]
    exact decodeLoop_escape_multi fuel b bs cp r hb hbs hn hlen hv

theorem escapeCodePoint_length_pos (cp : Nat) : 1 ≤ (escapeCodePoint cp).length := by
  unfold escapeCodePoint utf8Encode
  split_ifs <;> simp [percentEscape]

theorem utf16_bmp (c : CodeUnit) : utf16EncodeCodePoint c.val = [c] := by
  have : c.val ≤ 0xFFFF := by have := c.isLt; omega
  simp [utf16EncodeCodePoint, this, codeUnit_val]

theorem utf16_pair (c d : CodeUnit) (hc : isLeadingSurrogate c = true)
    (hd : isTrailingSurrogate d = true) :
    utf16EncodeCodePoint (utf16SurrogatePairToCodePoint c d) = [c, d] ∧
      utf16SurrogatePairToCodePoint c d < 0x110000 ∧
      ¬ (0xD800 ≤ utf16SurrogatePairToCodePoint c d ∧
        utf16SurrogatePairToCodePoint c d ≤ 0xDFFF) := by
  simp only [isLeadingSurrogate, isTrailingSurrogate, Bool.and_eq_true, decide_eq_true_eq] at hc hd
  have n1 : ¬ (utf16SurrogatePairToCodePoint c d ≤ 0xFFFF) := by
    unfold utf16SurrogatePairToCodePoint; omega
  refine ⟨?_, ?_, ?_⟩
  · simp only [utf16EncodeCodePoint, n1, if_false]
    have e1 : codeUnit ((utf16SurrogatePairToCodePoint c d - 0x10000) / 0x400 + 0xD800) = c := by
      apply Fin.ext
      simp only [codeUnit, utf16SurrogatePairToCodePoint]
      omega
    have e2 : codeUnit ((utf16SurrogatePairToCodePoint c d - 0x10000) % 0x400 + 0xDC00) = d := by
      apply Fin.ext
      simp only [codeUnit, utf16SurrogatePairToCodePoint]
      omega
    rw [e1, e2]
  · unfold utf16SurrogatePairToCodePoint; omega
  · unfold utf16SurrogatePairToCodePoint; omega

theorem isUnescaped_ne_percent (c : CodeUnit) (h : isUnescaped c = true) : c ≠ codeUnit 37 := by
  intro hc
  subst hc
  revert h
  decide

theorem isWellFormedUnicode_cons (c : CodeUnit) (rest : JsString) :
    isWellFormedUnicode (c :: rest) =
      if isLeadingSurrogate c then
        match rest with
        | d :: rest2 => isTrailingSurrogate d && isWellFormedUnicode rest2
        | [] => false
      else if isTrailingSurrogate c then false
      else isWellFormedUnicode rest := by
  cases rest <;> rfl

theorem encodeURIComponent_cons (c : CodeUnit) (rest : JsString) :
    encodeURIComponent (c :: rest) =
    if isUnescaped c then
      match encodeURIComponent rest with
      | Except.ok r => Except.ok (c :: r)
      | Except.error e => Except.error e
    else if isLeadingSurrogate c then
      match rest with
      | d :: rest2 =>
        if isTrailingSurrogate d then
          match encodeURIComponent rest2 with
          | Except.ok r => Except.ok (escapeCodePoint (utf16SurrogatePairToCodePoint c d) ++ r)
          | Except.error e => Except.error e
        else Except.error uriMalformed
      | [] => Except.error uriMalformed
    else if isTrailingSurrogate c then Except.error uriMalformed
    else
      match encodeURIComponent rest with
      | Except.ok r => Except.ok (escapeCodePoint c.val ++ r)
      | Except.error e => Except.error e := by
  cases rest <;> rfl

theorem isUnescaped_not_surrogate (c : CodeUnit) (h : isUnescaped c = true) :
    isLeadingSurrogate c = false ∧ isTrailingSurrogate c = false := by
  simp only [isUnescaped, Bool.or_eq_true, Bool.and_eq_true, decide_eq_true_eq] at h
  constructor
  · simp only [isLeadingSurrogate, Bool.and_eq_false_iff, decide_eq_false_iff_not]; omega
  · simp only [isTrailingSurrogate, Bool.and_eq_false_iff, decide_eq_false_iff_not]; omega

theorem decodeLoop_encode (n : Nat) : ∀ s : JsString, s.length ≤ n →
    isWellFormedUnicode s = true →
      ∃ e, encodeURIComponent s = Except.ok e ∧
        ∀ fuel, e.length ≤ fuel → decodeLoop fuel e = Except.ok s := by
  induction n with
  | zero =>
    intro s hs _
    have : s = [] := List.length_eq_zero.mp (by omega)
    subst this
    exact ⟨[], rfl, fun fuel _ => by cases fuel <;> rfl⟩
  | succ n ih =>
    intro s hs hw
    cases s with
    | nil => exact ⟨[], rfl, fun fuel _ => by cases fuel <;> rfl⟩
    | cons c rest =>
      have hrest : rest.length ≤ n := by simpa using hs
      rw [isWellFormedUnicode_cons] at hw
      rw [encodeURIComponent_cons]
      by_cases hu : isUnescaped c = true
      · obtain ⟨hl, ht⟩ := isUnescaped_not_surrogate c hu
        simp only [hl, ht, Bool.false_eq_true, if_false] at hw
        obtain ⟨e, he, hd⟩ := ih rest hrest hw
        refine ⟨c :: e, by simp only [hu, if_true, he], ?_⟩
        intro fuel hf
        cases fuel with
        | zero => simp at hf
        | succ fuel =>
          have hne := isUnescaped_ne_percent c hu
          simp only [decodeLoop, hne, if_false, hd fuel (by simpa using hf)]
      · simp only [hu, Bool.false_eq_true, if_false]
        by_cases hl : isLeadingSurrogate c = true
        · simp only [hl, if_true] at hw ⊢
          cases rest with
          | nil => simp at hw
          | cons d rest2 =>
            simp only [Bool.and_eq_true] at hw
            obtain ⟨hd, hw2⟩ := hw
            obtain ⟨e, he, hdec⟩ := ih rest2 (by simp at hrest; omega) hw2
            obtain ⟨p1, p2, p3⟩ := utf16_pair c d hl hd
            refine ⟨escapeCodePoint (utf16SurrogatePairToCodePoint c d) ++ e,
              by simp only [hd, if_true, he], ?_⟩
            intro fuel hf
            have hp := escapeCodePoint_length_pos (utf16SurrogatePairToCodePoint c d)
            rw [List.length_append] at hf
            cases fuel with
            | zero => omega
            | succ fuel =>
              rw [decodeLoop_escapeCodePoint fuel _ e p2 p3, hdec fuel (by omega), p1]
              rfl
        · simp only [hl, Bool.false_eq_true, if_false] at hw ⊢
          by_cases ht : isTrailingSurrogate c = true
          · simp [ht] at hw
          · simp only [ht, Bool.false_eq_true, if_false] at hw ⊢
            obtain ⟨e, he, hdec⟩ := ih rest hrest hw
            refine ⟨escapeCodePoint c.val ++ e, by simp only [he], ?_⟩
            intro fuel hf
            have hp := escapeCodePoint_length_pos c.val
            rw [List.length_append] at hf
            have q2 : c.val < 0x110000 := by have := c.isLt; omega
            have q3 : ¬ (0xD800 ≤ c.val ∧ c.val ≤ 0xDFFF) := by
              simp only [isLeadingSurrogate, isTrailingSurrogate, Bool.and_eq_true,
                decide_eq_true_eq] at hl ht
              omega
            cases fuel with
            | zero => omega
            | succ fuel =>
              rw [decodeLoop_escapeCodePoint fuel _ e q2 q3, hdec fuel (by omega), utf16_bmp]
              rfl

/-- For a well-formed string, `encodeURIComponent` succeeds and
`decodeURIComponent` gives the string back. -/
theorem decodeURIComponent_encodeURIComponent (s : JsString)
    (h : isWellFormedUnicode s = true) :
    ∃ e, encodeURIComponent s = Except.ok e ∧ decodeURIComponent e = Except.ok s := by
  obtain ⟨e, he, hd⟩ := decodeLoop_encode s.length s (le_refl _) h
  exact ⟨e, he, hd e.length (le_refl _)⟩

/-! ## `decodeURIComponent`: the fuel is enough -/

theorem readContinuation_succ (j : Nat) (s : JsString) :
    readContinuation (j + 1) s =
      match s with
      | p :: h1 :: h2 :: rest =>
        if p = codeUnit 37 then
          match parseHexOctet h1 h2 with
          | some b =>
            match readContinuation j rest with
            | some (bs, r) => some (b :: bs, r)
            | none => none
          | none => none
        else none
      | _ => none := by
  rcases s with _ | ⟨p, _ | ⟨h1, _ | ⟨h2, rest⟩⟩⟩ <;> rfl

theorem readContinuation_length (j : Nat) : ∀ (s : JsString) (bs : List Nat) (r : JsString),
    readContinuation j s = some (bs, r) → r.length ≤ s.length := by
  induction j with
  | zero =>
    intro s bs r h
    simp only [readContinuation, Option.some.injEq, Prod.mk.injEq] at h
    rw [h.2]
  | succ j ih =>
    intro s bs r h
    rw [readContinuation_succ] at h
    split at h
    · rename_i p h1 h2 rest
      split at h
      · split at h
        · split at h
          · rename_i bs1 r1 heq
            simp only [Option.some.injEq, Prod.mk.injEq] at h
            have := ih rest bs1 r1 heq
            rw [← h.2]; simp; omega
          · simp at h
        · simp at h
      · simp at h
    · simp at h

theorem decodeLoop_nil (fuel : Nat) : decodeLoop fuel [] = Except.ok [] := by
  cases fuel <;> rfl

theorem decodeLoop_cons (fuel : Nat) (c : CodeUnit) (rest : JsString) :
    decodeLoop (fuel + 1) (c :: rest) =
      if c = codeUnit 37 then
        match rest with
        | h1 :: h2 :: rest1 =>
          match parseHexOctet h1 h2 with
          | none => Except.error uriMalformed
          | some b =>
            if leadingOnes b = 0 then
              match decodeLoop fuel rest1 with
              | Except.ok r => Except.ok (codeUnit b :: r)
              | Except.error e => Except.error e
            else if leadingOnes b = 1 ∨ 4 < leadingOnes b then Except.error uriMalformed
            else
              match readContinuation (leadingOnes b - 1) rest1 with
              | none => Except.error uriMalformed
              | some (octets, rest2) =>
                match utf8Decode (b :: octets) with
                | none => Except.error uriMalformed
                | some v =>
                  match decodeLoop fuel rest2 with
                  | Except.ok r => Except.ok (utf16EncodeCodePoint v ++ r)
                  | Except.error e => Except.error e
        | _ => Except.error uriMalformed
      else
        match decodeLoop fuel rest with
        | Except.ok r => Except.ok (c :: r)
        | Except.error e => Except.error e := by
  rcases rest with _ | ⟨h1, _ | ⟨h2, rest1⟩⟩ <;> rfl

/-- The fuel `decodeURIComponent` gives is enough: with any fuel from the
length of the string on, the loop gives the same result. -/
theorem decodeLoop_fuel (n : Nat) : ∀ (s : JsString) (f g : Nat), s.length ≤ n →
    s.length ≤ f → s.length ≤ g → decodeLoop f s = decodeLoop g s := by
  induction n with
  | zero =>
    intro s f g hs _ _
    have : s = [] := List.length_eq_zero.mp (by omega)
    subst this
    rw [decodeLoop_nil, decodeLoop_nil]
  | succ n ih =>
    intro s f g hs hf hg
    cases s with
    | nil => rw [decodeLoop_nil, decodeLoop_nil]
    | cons c rest =>
      simp only [List.length_cons] at hs hf hg
      obtain ⟨f', rfl⟩ : ∃ f', f = f' + 1 := ⟨f - 1, by omega⟩
      obtain ⟨g', rfl⟩ : ∃ g', g = g' + 1 := ⟨g - 1, by omega⟩
      rw [decodeLoop_cons, decodeLoop_cons]
      split
      · split
        · rename_i h1 h2 rest1
          simp only [List.length_cons] at hs hf hg
          split
          · rfl
          · rename_i b hb
            split
            · rw [ih rest1 f' g' (by omega) (by omega) (by omega)]
            · split
              · rfl
              · split
                · rfl
                · rename_i octets rest2 hrc
                  have hl := readContinuation_length _ _ _ _ hrc
                  split
                  · rfl
                  · rw [ih rest2 f' g' (by omega) (by omega) (by omega)]
        · rfl
      · rw [ih rest f' g' (by omega) (by omega) (by omega)]

/-! ## The client -/

theorem JsM.bind_apply {α β : Type} (m : JsM α) (f : α → JsM β) (t : Trace) :
    (m >>= f) t =
      match m t with
      | (Except.ok a, t1) => f a t1
      | (Except.error e, t1) => (Except.error e, t1) := rfl

theorem JsM.pure_apply {α : Type} (a : α) (t : Trace) :
    (pure a : JsM α) t = (Except.ok a, t) := rfl

theorem request_resolved (net : Network) (url : JsString) (options : RequestOptions)
    (t : Trace) (r : Response)
    (h : net t.calls.length ⟨url, options.method, options.body, mergeHeaders options.headers⟩
      = Except.ok r) :
    BankingApiClient.request net url options t =
      (Except.ok r, { t with calls := t.calls ++
        [⟨url, options.method, options.body, mergeHeaders options.headers⟩] }) := by
  simp only [BankingApiClient.request, JsM.tryCatch, JsM.bind_apply, fetch, h, JsM.pure_apply]

theorem request_rejected (net : Network) (url : JsString) (options : RequestOptions)
    (t : Trace) (e : JsError)
    (h : net t.calls.length ⟨url, options.method, options.body, mergeHeaders options.headers⟩
      = Except.error e) :
    BankingApiClient.request net url options t =
      (Except.error ⟨ErrorKind.Error, js "Network error: " ++ e.message⟩,
        { t with calls := t.calls ++
          [⟨url, options.method, options.body, mergeHeaders options.headers⟩] }) := by
  simp only [BankingApiClient.request, JsM.tryCatch, JsM.bind_apply, fetch, h, JsM.throw]

theorem request_run (net : Network) (url : JsString) (options : RequestOptions) (t : Trace) :
    BankingApiClient.request net url options t =
      (match net t.calls.length ⟨url, options.method, options.body,
          mergeHeaders options.headers⟩ with
        | Except.ok r => Except.ok r
        | Except.error e => Except.error ⟨ErrorKind.Error, js "Network error: " ++ e.message⟩,
        { t with calls := t.calls ++
          [⟨url, options.method, options.body, mergeHeaders options.headers⟩] }) := by
  cases h : net t.calls.length ⟨url, options.method, options.body,
      mergeHeaders options.headers⟩ with
  | ok r => exact request_resolved net url options t r h
  | error e => exact request_rejected net url options t e h

theorem mergeHeaders_none :
    mergeHeaders none = [(js "Content-Type", js "application/json")] := rfl

/-- What `getAuthToken` does, step by step. -/
theorem getAuthToken_run (net : Network) (self : BankingApiClient)
    (claim username password : JsString) (t : Trace) :
    BankingApiClient.getAuthToken net self claim username password t =
      match encodeURIComponent claim with
      | Except.error e => (Except.error e, t)
      | Except.ok encoded =>
        (methodOutcome (some (js "Auth failed: ")) (net t.calls.length
            ⟨self.baseUrl ++ js "/authToken" ++ js "?claim=" ++ encoded, some (js "POST"),
              some (JSON.stringify (JsValue.object [(js "username", JsValue.string username),
                (js "password", JsValue.string password)]) 0),
              [(js "Content-Type", js "application/json")]⟩),
          { t with calls := t.calls ++
            [⟨self.baseUrl ++ js "/authToken" ++ js "?claim=" ++ encoded, some (js "POST"),
              some (JSON.stringify (JsValue.object [(js "username", JsValue.string username),
                (js "password", JsValue.string password)]) 0),
              [(js "Content-Type", js "application/json")]⟩] }) := by
  simp only [BankingApiClient.getAuthToken, JsM.bind_apply, JsM.ofExcept, request_run,
    mergeHeaders_none, ENDPOINTS.AUTH_TOKEN, methodOutcome]
  cases encodeURIComponent claim with
  | error e => rfl
  | ok encoded =>
    simp only []
    generalize net t.calls.length _ = res
    cases res with
    | error e => rfl
    | ok r =>
      cases htext : r.text with
      | error e => simp [htext]
      | ok body => cases hok : r.ok <;> simp [htext, hok, JsM.throw, JsM.pure_apply]

/-- What `listAccounts` does, step by step. -/
theorem listAccounts_run (net : Network) (self : BankingApiClient) (t : Trace) :
    BankingApiClient.listAccounts net self t =
      (methodOutcome (some (js "Failed to list accounts: ")) (net t.calls.length
          ⟨self.baseUrl ++ js "/accounts", some (js "GET"), none,
            [(js "Content-Type", js "application/json")]⟩),
        { t with calls := t.calls ++
          [⟨self.baseUrl ++ js "/accounts", some (js "GET"), none,
            [(js "Content-Type", js "application/json")]⟩] }) := by
  simp only [BankingApiClient.listAccounts, JsM.bind_apply, JsM.ofExcept, request_run,
    mergeHeaders_none, ENDPOINTS.ACCOUNTS, methodOutcome]
  generalize net t.calls.length _ = res
  cases res with
  | error e => rfl
  | ok r =>
    cases htext : r.text with
    | error e => simp [htext]
    | ok body => cases hok : r.ok <;> simp [htext, hok, JsM.throw, JsM.pure_apply]

/-- What `validateAccount` does, step by step. -/
theorem validateAccount_run (net : Network) (self : BankingApiClient) (accountId : JsString)
    (t : Trace) :
    BankingApiClient.validateAccount net self accountId t =
      match encodeURIComponent accountId with
      | Except.error e => (Except.error e, t)
      | Except.ok encoded =>
        (methodOutcome none (net t.calls.length
            ⟨self.baseUrl ++ js "/accounts/validate" ++ js "/" ++ encoded, some (js "GET"), none,
              [(js "Content-Type", js "application/json")]⟩),
          { t with calls := t.calls ++
            [⟨self.baseUrl ++ js "/accounts/validate" ++ js "/" ++ encoded, some (js "GET"), none,
              [(js "Content-Type", js "application/json")]⟩] }) := by
  simp only [BankingApiClient.validateAccount, JsM.bind_apply, JsM.ofExcept, request_run,
    mergeHeaders_none, ENDPOINTS.ACCOUNT_VALIDATE, methodOutcome]
  cases encodeURIComponent accountId with
  | error e => rfl
  | ok encoded =>
    simp only []
    generalize net t.calls.length _ = res
    cases res with
    | error e => rfl
    | ok r =>
      cases htext : r.text with
      | error e => simp [htext]
      | ok body => simp [htext, JsM.pure_apply]

/-- What `getAccountBalance` does, step by step. -/
theorem getAccountBalance_run (net : Network) (self : BankingApiClient) (accountId : JsString)
    (t : Trace) :
    BankingApiClient.getAccountBalance net self accountId t =
      match encodeURIComponent accountId with
      | Except.error e => (Except.error e, t)
      | Except.ok encoded =>
        (methodOutcome (some (js "Failed to get balance: ")) (net t.calls.length
            ⟨self.baseUrl ++ js "/accounts/balance" ++ js "/" ++ encoded, some (js "GET"), none,
              [(js "Content-Type", js "application/json")]⟩),
          { t with calls := t.calls ++
            [⟨self.baseUrl ++ js "/accounts/balance" ++ js "/" ++ encoded, some (js "GET"), none,
              [(js "Content-Type", js "application/json")]⟩] }) := by
  simp only [BankingApiClient.getAccountBalance, JsM.bind_apply, JsM.ofExcept, request_run,
    mergeHeaders_none, ENDPOINTS.ACCOUNT_BALANCE, methodOutcome]
  cases encodeURIComponent accountId with
  | error e => rfl
  | ok encoded =>
    simp only []
    generalize net t.calls.length _ = res
    cases res with
    | error e => rfl
    | ok r =>
      cases htext : r.text with
      | error e => simp [htext]
      | ok body => cases hok : r.ok <;> simp [htext, hok, JsM.throw, JsM.pure_apply]

/-- What `transferFunds` does, step by step. -/
theorem transferFunds_run (net : Network) (self : BankingApiClient)
    (fromAccount toAccount : JsString) (amount : JsNumber) (t : Trace) :
    BankingApiClient.transferFunds net self fromAccount toAccount amount t =
      (methodOutcome none (net t.calls.length
          ⟨self.baseUrl ++ js "/transfer", some (js "POST"),
            some (JSON.stringify (JsValue.object [(js "fromAccount", JsValue.string fromAccount),
              (js "toAccount", JsValue.string toAccount), (js "amount", JsValue.number amount)]) 0),
            [(js "Content-Type", js "application/json")]⟩),
        { t with calls := t.calls ++
          [⟨self.baseUrl ++ js "/transfer", some (js "POST"),
            some (JSON.stringify (JsValue.object [(js "fromAccount", JsValue.string fromAccount),
              (js "toAccount", JsValue.string toAccount), (js "amount", JsValue.number amount)]) 0),
            [(js "Content-Type", js "application/json")]⟩] }) := by
  simp only [BankingApiClient.transferFunds, JsM.bind_apply, JsM.ofExcept, request_run,
    mergeHeaders_none, ENDPOINTS.TRANSFER, methodOutcome]
  generalize net t.calls.length _ = res
  cases res with
  | error e => rfl
  | ok r =>
    cases htext : r.text with
    | error e => simp [htext]
    | ok body => simp [htext, JsM.pure_apply]

/-! ## The decimal numeral of the status -/

theorem codeUnit_digit_val (d : Nat) (h : d < 10) : (codeUnit (48 + d)).val = 48 + d := by
  simp only [codeUnit]
  omega

/-- The digits `decimalDigits` gives are the canonical numeral: they read back
as the number, are decimal digits, and start with `0` only for the number 0. -/
theorem decimalDigits_spec (fuel : Nat) : ∀ n, n < fuel →
    (decimalDigits fuel n).foldl (fun acc c => 10 * acc + (c.val - 48)) 0 = n ∧
    (∀ c ∈ decimalDigits fuel n, 48 ≤ c.val ∧ c.val ≤ 57) ∧
    decimalDigits fuel n ≠ [] ∧
    (0 < n → (decimalDigits fuel n).head? ≠ some (codeUnit 48)) := by
  induction fuel with
  | zero => intro n h; omega
  | succ fuel ih =>
    intro n h
    rw [decimalDigits]
    by_cases h10 : n < 10
    · simp only [h10, if_true]
      have hv := codeUnit_digit_val n h10
      refine ⟨?_, ?_, by simp, ?_⟩
      · simp only [List.foldl_cons, List.foldl_nil, hv]; omega
      · intro c hc
        simp only [List.mem_singleton] at hc
        subst hc
        omega
      · intro hpos hhead
        simp only [List.head?_cons, Option.some.injEq] at hhead
        have := congrArg Fin.val hhead
        rw [hv, codeUnit_digit_val 0 (by omega)] at this
        omega
    · simp only [h10, if_false]
      obtain ⟨i1, i2, i3, i4⟩ := ih (n / 10) (by omega)
      have hv := codeUnit_digit_val (n % 10) (by omega)
      refine ⟨?_, ?_, by simp, ?_⟩
      · simp only [List.foldl_append, List.foldl_cons, List.foldl_nil, i1, hv]; omega
      · intro c hc
        rcases List.mem_append.mp hc with h1 | h1
        · exact i2 c h1
        · simp only [List.mem_singleton] at h1
          subst h1
          omega
      · intro _
        have hpos : 0 < n / 10 := by omega
        have := i4 hpos
        cases hd : decimalDigits fuel (n / 10) with
        | nil => exact absurd hd i3
        | cons x xs =>
          rw [hd] at this
          simpa using this

/-- The text `natToString` gives is the canonical decimal numeral of the number. -/
theorem natToString_spec (n : Nat) :
    (natToString n).foldl (fun acc c => 10 * acc + (c.val - 48)) 0 = n ∧
    (∀ c ∈ natToString n, 48 ≤ c.val ∧ c.val ≤ 57) ∧
    natToString n ≠ [] ∧
    (0 < n → (natToString n).head? ≠ some (codeUnit 48)) :=
  decimalDigits_spec (n + 1) n (by omega)

/-! ## Status handling (C1, C2) and transport failures (C3) -/

/-- C1 as stated fails: a response with status 200 whose body cannot be read
(`await response.text()` rejected with `TypeError: terminated`) makes
`getAuthToken` throw that `TypeError`, although the status is a success. -/
theorem success_status_body_failure_counterexample :
    Response.ok ⟨200, js "OK", Except.error ⟨ErrorKind.TypeError, js "terminated"⟩⟩ = true ∧
    (BankingApiClient.getAuthToken
        (fun _ _ => Except.ok ⟨200, js "OK", Except.error ⟨ErrorKind.TypeError, js "terminated"⟩⟩)
        (BankingApiClient.new none) (js "enquiry") (js "alice") (js "any") Trace.empty).1 =
      Except.error ⟨ErrorKind.TypeError, js "terminated"⟩ := by
  decide

/-- C1, amended: when the `fetch` of `getAuthToken`, `listAccounts` or
`getAccountBalance` resolves with a response `r` and the body of `r` is read as
the text `body`, the method throws exactly when `r.ok` is false, that is when
the status is outside 200-299; the message is then the label of the method,
the decimal numeral of the status, the status text, `" - "` and `body`; with a
status in 200-299 the method returns `body` unchanged. When reading the body
fails, the method throws the error of the read, whatever the status. -/
theorem operation_result_by_status (net : Network) (self : BankingApiClient) (t : Trace)
    (r : Response) (claim username password accountId encodedClaim encodedId : JsString)
    (hclaim : encodeURIComponent claim = Except.ok encodedClaim)
    (hid : encodeURIComponent accountId = Except.ok encodedId)
    (hnet : ∀ call, net t.calls.length call = Except.ok r) :
    (r.ok = true ↔ 200 ≤ r.status ∧ r.status ≤ 299) ∧
    ((natToString r.status).foldl (fun acc c => 10 * acc + (c.val - 48)) 0 = r.status ∧
      (∀ c ∈ natToString r.status, 48 ≤ c.val ∧ c.val ≤ 57) ∧
      natToString r.status ≠ [] ∧
      (0 < r.status → (natToString r.status).head? ≠ some (codeUnit 48))) ∧
    (BankingApiClient.getAuthToken net self claim username password t).1 =
      (match r.text with
        | Except.ok body =>
          if r.ok then Except.ok body
          else Except.error ⟨ErrorKind.Error, js "Auth failed: " ++ natToString r.status
            ++ js " " ++ r.statusText ++ js " - " ++ body⟩
        | Except.error e => Except.error e) ∧
    (BankingApiClient.listAccounts net self t).1 =
      (match r.text with
        | Except.ok body =>
          if r.ok then Except.ok body
          else Except.error ⟨ErrorKind.Error, js "Failed to list accounts: "
            ++ natToString r.status ++ js " " ++ r.statusText ++ js " - " ++ body⟩
        | Except.error e => Except.error e) ∧
    (BankingApiClient.getAccountBalance net self accountId t).1 =
      (match r.text with
        | Except.ok body =>
          if r.ok then Except.ok body
          else Except.error ⟨ErrorKind.Error, js "Failed to get balance: "
            ++ natToString r.status ++ js " " ++ r.statusText ++ js " - " ++ body⟩
        | Except.error e => Except.error e) := by
  refine ⟨by simp [Response.ok], natToString_spec r.status, ?_, ?_, ?_⟩
  · rw [getAuthToken_run, hclaim]
    simp only [hnet, methodOutcome]
    cases r.text <;> rfl
  · rw [listAccounts_run]
    simp only [hnet, methodOutcome]
    cases r.text <;> rfl
  · rw [getAccountBalance_run, hid]
    simp only [hnet, methodOutcome]
    cases r.text <;> rfl

/-- C1, amended, at two servers: one answers 401 with the body
`{"error":"bad credentials"}`, and `getAuthToken('enquiry', 'alice', 'any')`
throws `Error: Auth failed: 401 Unauthorized - {"error":"bad credentials"}`;
one answers 200 with the body `{"token":"abc"}`, and the call returns that body. -/
theorem operation_result_by_status_witness :
    (BankingApiClient.getAuthToken
        (fun _ _ => Except.ok
          ⟨401, js "Unauthorized", Except.ok (js "\x7b\"error\":\"bad credentials\"\x7d")⟩)
        (BankingApiClient.new none) (js "enquiry") (js "alice") (js "any") Trace.empty).1 =
      Except.error ⟨ErrorKind.Error,
        js "Auth failed: 401 Unauthorized - \x7b\"error\":\"bad credentials\"\x7d"⟩ ∧
    (BankingApiClient.getAuthToken
        (fun _ _ => Except.ok ⟨200, js "OK", Except.ok (js "\x7b\"token\":\"abc\"\x7d")⟩)
        (BankingApiClient.new none) (js "enquiry") (js "alice") (js "any") Trace.empty).1 =
      Except.ok (js "\x7b\"token\":\"abc\"\x7d") :=
  ⟨(operation_result_by_status
      (fun _ _ => Except.ok
        ⟨401, js "Unauthorized", Except.ok (js "\x7b\"error\":\"bad credentials\"\x7d")⟩)
      (BankingApiClient.new none) Trace.empty
      ⟨401, js "Unauthorized", Except.ok (js "\x7b\"error\":\"bad credentials\"\x7d")⟩
      (js "enquiry") (js "alice") (js "any") (js "ACC1000") (js "enquiry") (js "ACC1000")
      (by decide) (by decide) (fun _ => rfl)).2.2.1.trans (by decide),
    (operation_result_by_status
      (fun _ _ => Except.ok ⟨200, js "OK", Except.ok (js "\x7b\"token\":\"abc\"\x7d")⟩)
      (BankingApiClient.new none) Trace.empty
      ⟨200, js "OK", Except.ok (js "\x7b\"token\":\"abc\"\x7d")⟩
      (js "enquiry") (js "alice") (js "any") (js "ACC1000") (js "enquiry") (js "ACC1000")
      (by decide) (by decide) (fun _ => rfl)).2.2.1.trans (by decide)⟩

/-- C2 as stated fails: a response with status 404 whose body cannot be read
makes `validateAccount('ACC9999')` throw the `TypeError` of the read: the
method raises although a response was returned to it. -/
theorem passthrough_body_failure_counterexample :
    (BankingApiClient.validateAccount
        (fun _ _ => Except.ok
          ⟨404, js "Not Found", Except.error ⟨ErrorKind.TypeError, js "terminated"⟩⟩)
        (BankingApiClient.new none) (js "ACC9999") Trace.empty).1 =
      Except.error ⟨ErrorKind.TypeError, js "terminated"⟩ := by
  decide

/-- C2, amended: when the `fetch` of `validateAccount` or `transferFunds`
resolves with a response whose body is read as the text `body`, the method
returns `body` unchanged and does not throw, whatever the status is. When
reading the body fails, the method throws the error of the read. -/
theorem passthrough_result (net : Network) (self : BankingApiClient) (t : Trace)
    (r : Response) (accountId encodedId fromAccount toAccount : JsString) (amount : JsNumber)
    (hid : encodeURIComponent accountId = Except.ok encodedId)
    (hnet : ∀ call, net t.calls.length call = Except.ok r) :
    (BankingApiClient.validateAccount net self accountId t).1 =
      (match r.text with
        | Except.ok body => Except.ok body
        | Except.error e => Except.error e) ∧
    (BankingApiClient.transferFunds net self fromAccount toAccount amount t).1 =
      (match r.text with
        | Except.ok body => Except.ok body
        | Except.error e => Except.error e) := by
  constructor
  · rw [validateAccount_run, hid]
    simp only [hnet, methodOutcome]
    cases r.text <;> rfl
  · rw [transferFunds_run]
    simp only [hnet, methodOutcome]
    cases r.text <;> rfl

/-- C2, amended, at a server that answers 404 with the body
`{"error":"not found"}`: `validateAccount('ACC9999')` returns that body; at a
server that answers 200 with `{"status":"ok"}`, `transferFunds('ACC1000',
'ACC1001', 50)` returns that body. -/
theorem passthrough_result_witness :
    (BankingApiClient.validateAccount
        (fun _ _ => Except.ok
          ⟨404, js "Not Found", Except.ok (js "\x7b\"error\":\"not found\"\x7d")⟩)
        (BankingApiClient.new none) (js "ACC9999") Trace.empty).1 =
      Except.ok (js "\x7b\"error\":\"not found\"\x7d") ∧
    (BankingApiClient.transferFunds
        (fun _ _ => Except.ok ⟨200, js "OK", Except.ok (js "\x7b\"status\":\"ok\"\x7d")⟩)
        (BankingApiClient.new none) (js "ACC1000") (js "ACC1001") ⟨js "50"⟩ Trace.empty).1 =
      Except.ok (js "\x7b\"status\":\"ok\"\x7d") :=
  ⟨(passthrough_result
      (fun _ _ => Except.ok
        ⟨404, js "Not Found", Except.ok (js "\x7b\"error\":\"not found\"\x7d")⟩)
      (BankingApiClient.new none) Trace.empty
      ⟨404, js "Not Found", Except.ok (js "\x7b\"error\":\"not found\"\x7d")⟩
      (js "ACC9999") (js "ACC9999") (js "ACC1000") (js "ACC1001") ⟨js "50"⟩
      (by decide) (fun _ => rfl)).1,
    (passthrough_result
      (fun _ _ => Except.ok ⟨200, js "OK", Except.ok (js "\x7b\"status\":\"ok\"\x7d")⟩)
      (BankingApiClient.new none) Trace.empty
      ⟨200, js "OK", Except.ok (js "\x7b\"status\":\"ok\"\x7d")⟩
      (js "ACC9999") (js "ACC9999") (js "ACC1000") (js "ACC1001") ⟨js "50"⟩
      (by decide) (fun _ => rfl)).2⟩

/-- C3 as stated fails: when the transport fails while the body is read (the
`fetch` has resolved with status 200, `await response.text()` is rejected with
`TypeError: terminated`), `listAccounts` throws that `TypeError` itself and not
an error with the message `Network error: terminated`. -/
theorem body_read_failure_not_network_error_counterexample :
    (BankingApiClient.listAccounts
        (fun _ _ => Except.ok ⟨200, js "OK", Except.error ⟨ErrorKind.TypeError, js "terminated"⟩⟩)
        (BankingApiClient.new none) Trace.empty).1 =
      Except.error ⟨ErrorKind.TypeError, js "terminated"⟩ ∧
    (BankingApiClient.listAccounts
        (fun _ _ => Except.ok ⟨200, js "OK", Except.error ⟨ErrorKind.TypeError, js "terminated"⟩⟩)
        (BankingApiClient.new none) Trace.empty).1 ≠
      Except.error ⟨ErrorKind.Error, js "Network error: terminated"⟩ := by
  decide

/-- C3, amended: when the `fetch` of a client method is rejected with an error
of message `m`, the method throws an `Error` whose message is
`"Network error: "` followed by `m`; this holds for all five methods,
`validateAccount` and `transferFunds` included. A failure while the body of a
resolved response is read is not caught by `request`: each of the five methods
then throws the error of the read unchanged. -/
theorem fetch_rejection_is_network_error (net : Network) (self : BankingApiClient) (t : Trace)
    (reply : Except JsError Response)
    (claim username password accountId encodedClaim encodedId : JsString)
    (fromAccount toAccount : JsString) (amount : JsNumber)
    (hclaim : encodeURIComponent claim = Except.ok encodedClaim)
    (hid : encodeURIComponent accountId = Except.ok encodedId)
    (hnet : ∀ call, net t.calls.length call = reply) :
    (∀ failure : JsError, reply = Except.error failure →
      (BankingApiClient.getAuthToken net self claim username password t).1 =
        Except.error ⟨ErrorKind.Error, js "Network error: " ++ failure.message⟩ ∧
      (BankingApiClient.listAccounts net self t).1 =
        Except.error ⟨ErrorKind.Error, js "Network error: " ++ failure.message⟩ ∧
      (BankingApiClient.validateAccount net self accountId t).1 =
        Except.error ⟨ErrorKind.Error, js "Network error: " ++ failure.message⟩ ∧
      (BankingApiClient.getAccountBalance net self accountId t).1 =
        Except.error ⟨ErrorKind.Error, js "Network error: " ++ failure.message⟩ ∧
      (BankingApiClient.transferFunds net self fromAccount toAccount amount t).1 =
        Except.error ⟨ErrorKind.Error, js "Network error: " ++ failure.message⟩) ∧
    (∀ (r : Response) (e : JsError), reply = Except.ok r → r.text = Except.error e →
      (BankingApiClient.getAuthToken net self claim username password t).1 = Except.error e ∧
      (BankingApiClient.listAccounts net self t).1 = Except.error e ∧
      (BankingApiClient.validateAccount net self accountId t).1 = Except.error e ∧
      (BankingApiClient.getAccountBalance net self accountId t).1 = Except.error e ∧
      (BankingApiClient.transferFunds net self fromAccount toAccount amount t).1
        = Except.error e) := by
  constructor
  · intro failure hr
    subst hr
    refine ⟨?_, ?_, ?_, ?_, ?_⟩
    · rw [getAuthToken_run, hclaim]; simp only [hnet, methodOutcome]
    · rw [listAccounts_run]; simp only [hnet, methodOutcome]
    · rw [validateAccount_run, hid]; simp only [hnet, methodOutcome]
    · rw [getAccountBalance_run, hid]; simp only [hnet, methodOutcome]
    · rw [transferFunds_run]; simp only [hnet, methodOutcome]
  · intro r e hr htext
    subst hr
    refine ⟨?_, ?_, ?_, ?_, ?_⟩
    · rw [getAuthToken_run, hclaim]; simp only [hnet, methodOutcome, htext]
    · rw [listAccounts_run]; simp only [hnet, methodOutcome, htext]
    · rw [validateAccount_run, hid]; simp only [hnet, methodOutcome, htext]
    · rw [getAccountBalance_run, hid]; simp only [hnet, methodOutcome, htext]
    · rw [transferFunds_run]; simp only [hnet, methodOutcome, htext]

/-- C3, amended, at an unreachable host (`fetch` rejected with
`TypeError: fetch failed`): `validateAccount('ACC1000')` and
`transferFunds('ACC1000', 'ACC1001', 50)` throw
`Error: Network error: fetch failed`. -/
theorem fetch_rejection_is_network_error_witness :
    (BankingApiClient.validateAccount
        (fun _ _ => Except.error ⟨ErrorKind.TypeError, js "fetch failed"⟩)
        (BankingApiClient.new none) (js "ACC1000") Trace.empty).1 =
      Except.error ⟨ErrorKind.Error, js "Network error: fetch failed"⟩ ∧
    (BankingApiClient.transferFunds
        (fun _ _ => Except.error ⟨ErrorKind.TypeError, js "fetch failed"⟩)
        (BankingApiClient.new none) (js "ACC1000") (js "ACC1001") ⟨js "50"⟩ Trace.empty).1 =
      Except.error ⟨ErrorKind.Error, js "Network error: fetch failed"⟩ :=
  ⟨((fetch_rejection_is_network_error
      (fun _ _ => Except.error ⟨ErrorKind.TypeError, js "fetch failed"⟩)
      (BankingApiClient.new none) Trace.empty
      (Except.error ⟨ErrorKind.TypeError, js "fetch failed"⟩)
      (js "enquiry") (js "alice") (js "any") (js "ACC1000") (js "enquiry") (js "ACC1000")
      (js "ACC1000") (js "ACC1001") ⟨js "50"⟩ (by decide) (by decide) (fun _ => rfl)).1
      ⟨ErrorKind.TypeError, js "fetch failed"⟩ rfl).2.2.1,
    ((fetch_rejection_is_network_error
      (fun _ _ => Except.error ⟨ErrorKind.TypeError, js "fetch failed"⟩)
      (BankingApiClient.new none) Trace.empty
      (Except.error ⟨ErrorKind.TypeError, js "fetch failed"⟩)
      (js "enquiry") (js "alice") (js "any") (js "ACC1000") (js "enquiry") (js "ACC1000")
      (js "ACC1000") (js "ACC1001") ⟨js "50"⟩ (by decide) (by decide) (fun _ => rfl)).1
      ⟨ErrorKind.TypeError, js "fetch failed"⟩ rfl).2.2.2.2⟩

/-! ## The base URL (C4, C5) -/

theorem js_slash : js "/" = [codeUnit 47] := by decide

theorem replaceTrailingSlash_concat (s : JsString) (c : CodeUnit) :
    replaceTrailingSlash (s ++ [c]) = if c = codeUnit 47 then s else s ++ [c] := by
  induction s with
  | nil => simp [replaceTrailingSlash]
  | cons a s ih =>
    cases s with
    | nil =>
      simp only [List.cons_append, List.nil_append, replaceTrailingSlash]
      split_ifs <;> rfl
    | cons b s =>
      show a :: replaceTrailingSlash (b :: s ++ [c]) = _
      rw [ih]
      split_ifs <;> rfl

theorem slash_suffix_concat (s : JsString) (c : CodeUnit) :
    js "/" <:+ s ++ [c] ↔ c = codeUnit 47 := by
  rw [js_slash]
  constructor
  · rintro ⟨p, hp⟩
    have := List.append_inj' hp rfl
    simpa using this.2.symm
  · rintro rfl
    exact ⟨s, rfl⟩

theorem not_slash_suffix_nil : ¬ js "/" <:+ ([] : JsString) := by decide

/-- What the constructor stores: the argument without its last code unit when
that is `/`, the argument itself otherwise. -/
theorem baseUrl_eq (b : JsString) :
    (BankingApiClient.new (some b)).baseUrl = if js "/" <:+ b then b.dropLast else b := by
  show replaceTrailingSlash b = _
  rcases List.eq_nil_or_concat b with rfl | ⟨s, c, rfl⟩
  · simp [not_slash_suffix_nil, replaceTrailingSlash]
  · rw [List.concat_eq_append, replaceTrailingSlash_concat]
    simp only [slash_suffix_concat, List.dropLast_concat]

/-- C4 as stated fails: with a base URL that ends in two slashes the stored
`baseUrl` still ends with `/`, and the URL of `listAccounts` has a double slash
at the join. -/
theorem baseUrl_trailing_slash_counterexample :
    js "/" <:+ (BankingApiClient.new (some (js "http://localhost:8123//"))).baseUrl ∧
    (BankingApiClient.new (some (js "http://localhost:8123//"))).baseUrl ++ ENDPOINTS.ACCOUNTS
      = js "http://localhost:8123//accounts" := by
  decide

/-- C4, amended: for every base URL string that does not end with two slashes
(every one with a single trailing slash included) the stored `baseUrl` does not
end with `/`; it is the argument with one trailing `/` removed. -/
theorem baseUrl_no_trailing_slash (b : JsString) (h : ¬ js "//" <:+ b) :
    ¬ js "/" <:+ (BankingApiClient.new (some b)).baseUrl ∧
    (BankingApiClient.new (some b)).baseUrl = (if js "/" <:+ b then b.dropLast else b) := by
  refine ⟨?_, baseUrl_eq b⟩
  rw [baseUrl_eq]
  rcases List.eq_nil_or_concat b with rfl | ⟨s, c, rfl⟩
  · simp only [not_slash_suffix_nil, if_false, not_false_eq_true]
  · rw [List.concat_eq_append] at h ⊢
    by_cases hc : c = codeUnit 47
    · subst hc
      simp only [(slash_suffix_concat s _).mpr rfl, if_true, List.dropLast_concat]
      rintro ⟨p, hp⟩
      apply h
      refine ⟨p, ?_⟩
      rw [← hp, js_slash]
      have : js "//" = [codeUnit 47, codeUnit 47] := by decide
      rw [this]
      simp
    · have hn : ¬ js "/" <:+ s ++ [c] := fun hs => hc ((slash_suffix_concat s c).mp hs)
      simp only [hn, if_false, not_false_eq_true]

/-- C4, amended, at `http://localhost:8123/`. -/
theorem baseUrl_no_trailing_slash_witness :
    ¬ js "/" <:+ (BankingApiClient.new (some (js "http://localhost:8123/"))).baseUrl ∧
    (BankingApiClient.new (some (js "http://localhost:8123/"))).baseUrl
      = js "http://localhost:8123" :=
  ⟨(baseUrl_no_trailing_slash (js "http://localhost:8123/") (by decide)).1, by decide⟩

/-- C5: for a base URL `b` that does not end with `/`, the client constructed
with `b + '/'` is the client constructed with `b`, and every one of the five
methods, called with the same arguments, runs identically on the two: same
outcome and same recorded `fetch` invocations, hence the same request URL. -/
theorem trailing_slash_same_requests (b : JsString) (h : ¬ js "/" <:+ b) (net : Network)
    (t : Trace) (claim username password accountId fromAccount toAccount : JsString)
    (amount : JsNumber) :
    (BankingApiClient.new (some (b ++ js "/"))).baseUrl = (BankingApiClient.new (some b)).baseUrl ∧
    BankingApiClient.getAuthToken net (BankingApiClient.new (some (b ++ js "/"))) claim username
        password t
      = BankingApiClient.getAuthToken net (BankingApiClient.new (some b)) claim username
        password t ∧
    BankingApiClient.listAccounts net (BankingApiClient.new (some (b ++ js "/"))) t
      = BankingApiClient.listAccounts net (BankingApiClient.new (some b)) t ∧
    BankingApiClient.validateAccount net (BankingApiClient.new (some (b ++ js "/"))) accountId t
      = BankingApiClient.validateAccount net (BankingApiClient.new (some b)) accountId t ∧
    BankingApiClient.getAccountBalance net (BankingApiClient.new (some (b ++ js "/"))) accountId t
      = BankingApiClient.getAccountBalance net (BankingApiClient.new (some b)) accountId t ∧
    BankingApiClient.transferFunds net (BankingApiClient.new (some (b ++ js "/"))) fromAccount
        toAccount amount t
      = BankingApiClient.transferFunds net (BankingApiClient.new (some b)) fromAccount
        toAccount amount t := by
  have e : BankingApiClient.new (some (b ++ js "/")) = BankingApiClient.new (some b) := by
    have e1 : (BankingApiClient.new (some (b ++ js "/"))).baseUrl = b := by
      show replaceTrailingSlash (b ++ js "/") = b
      rw [js_slash, replaceTrailingSlash_concat, if_pos rfl]
    have e2 : (BankingApiClient.new (some b)).baseUrl = b := by
      rw [baseUrl_eq, if_neg h]
    cases h1 : BankingApiClient.new (some (b ++ js "/")) with
    | mk u1 =>
      cases h2 : BankingApiClient.new (some b) with
      | mk u2 =>
        rw [h1] at e1
        rw [h2] at e2
        simp only at e1 e2
        rw [e1, e2]
  rw [e]
  exact ⟨rfl, rfl, rfl, rfl, rfl, rfl⟩

/-- C5 at `http://localhost:8123`: with and without the trailing slash the
URL of the balance request is `http://localhost:8123/accounts/balance/ACC1000`. -/
theorem trailing_slash_same_requests_witness :
    ((BankingApiClient.getAccountBalance (fun _ _ => Except.ok ⟨200, js "OK", Except.ok (js "1")⟩)
        (BankingApiClient.new (some (js "http://localhost:8123" ++ js "/")))
        (js "ACC1000") Trace.empty).2.calls.map fun c => c.url)
      = [js "http://localhost:8123/accounts/balance/ACC1000"] ∧
    ((BankingApiClient.getAccountBalance (fun _ _ => Except.ok ⟨200, js "OK", Except.ok (js "1")⟩)
        (BankingApiClient.new (some (js "http://localhost:8123")))
        (js "ACC1000") Trace.empty).2.calls.map fun c => c.url)
      = [js "http://localhost:8123/accounts/balance/ACC1000"] :=
  ⟨by
    rw [(trailing_slash_same_requests (js "http://localhost:8123") (by decide)
      (fun _ _ => Except.ok ⟨200, js "OK", Except.ok (js "1")⟩) Trace.empty (js "enquiry") (js "alice")
      (js "any") (js "ACC1000") (js "ACC1000") (js "ACC1001") ⟨js "50"⟩).2.2.2.2.1]
    decide, by decide⟩

/-! ## The requests (C7) -/

/-- The text `JSON.stringify({ username, password })` gives for two strings. -/
theorem stringify_credentials (username password : JsString) :
    JSON.stringify (JsValue.object [(js "username", JsValue.string username),
        (js "password", JsValue.string password)]) 0
      = js "\x7b\"username\":" ++ quoteJSONString username ++ js ",\"password\":"
        ++ quoteJSONString password ++ js "\x7d" := by
  have q1 : quoteJSONString (js "username") = js "\"username\"" := by decide
  have q2 : quoteJSONString (js "password") = js "\"password\"" := by decide
  simp only [JSON.stringify, serializeJSONProperty, serializeJSONMembers, q1, q2]
  simp [wrapJSON, joinWith, js, utf16EncodeCodePoint]

/-- The text `JSON.stringify({ fromAccount, toAccount, amount })` gives for two
strings and a Number (`null` for a Number that is not finite). -/
theorem stringify_transfer (fromAccount toAccount : JsString) (amount : JsNumber) :
    JSON.stringify (JsValue.object [(js "fromAccount", JsValue.string fromAccount),
        (js "toAccount", JsValue.string toAccount), (js "amount", JsValue.number amount)]) 0
      = js "\x7b\"fromAccount\":" ++ quoteJSONString fromAccount ++ js ",\"toAccount\":"
        ++ quoteJSONString toAccount ++ js ",\"amount\":"
        ++ (if amount.isFinite then amount.toString else js "null") ++ js "\x7d" := by
  have q1 : quoteJSONString (js "fromAccount") = js "\"fromAccount\"" := by decide
  have q2 : quoteJSONString (js "toAccount") = js "\"toAccount\"" := by decide
  have q3 : quoteJSONString (js "amount") = js "\"amount\"" := by decide
  simp only [JSON.stringify, serializeJSONProperty, serializeJSONMembers, q1, q2, q3]
  simp [wrapJSON, joinWith, js, utf16EncodeCodePoint]

/-- The `fetch` invocation each method records, with the header
`Content-Type: application/json` and nothing else in the headers:
`getAuthToken` a `POST` to `baseUrl + '/authToken?claim=' + encodeURIComponent(claim)`
with the JSON text of `{username, password}` as body, `listAccounts` a `GET` to
`baseUrl + '/accounts'`, `validateAccount` and `getAccountBalance` a `GET` to
`baseUrl + '/accounts/validate/'` and `baseUrl + '/accounts/balance/'` followed
by `encodeURIComponent(accountId)`, `transferFunds` a `POST` to
`baseUrl + '/transfer'` with the JSON text of `{fromAccount, toAccount, amount}`.
Where `encodeURIComponent` throws, so does the method, before any request. -/
theorem recorded_requests (net : Network) (self : BankingApiClient) (t : Trace)
    (claim username password accountId fromAccount toAccount : JsString) (amount : JsNumber) :
    (BankingApiClient.getAuthToken net self claim username password t).2.calls =
      (match encodeURIComponent claim with
        | Except.ok encoded =>
          t.calls ++ [⟨self.baseUrl ++ js "/authToken?claim=" ++ encoded, some (js "POST"),
            some (js "\x7b\"username\":" ++ quoteJSONString username ++ js ",\"password\":"
              ++ quoteJSONString password ++ js "\x7d"),
            [(js "Content-Type", js "application/json")]⟩]
        | Except.error _ => t.calls) ∧
    (BankingApiClient.listAccounts net self t).2.calls =
      t.calls ++ [⟨self.baseUrl ++ js "/accounts", some (js "GET"), none,
        [(js "Content-Type", js "application/json")]⟩] ∧
    (BankingApiClient.validateAccount net self accountId t).2.calls =
      (match encodeURIComponent accountId with
        | Except.ok encoded =>
          t.calls ++ [⟨self.baseUrl ++ js "/accounts/validate/" ++ encoded, some (js "GET"), none,
            [(js "Content-Type", js "application/json")]⟩]
        | Except.error _ => t.calls) ∧
    (BankingApiClient.getAccountBalance net self accountId t).2.calls =
      (match encodeURIComponent accountId with
        | Except.ok encoded =>
          t.calls ++ [⟨self.baseUrl ++ js "/accounts/balance/" ++ encoded, some (js "GET"), none,
            [(js "Content-Type", js "application/json")]⟩]
        | Except.error _ => t.calls) ∧
    (BankingApiClient.transferFunds net self fromAccount toAccount amount t).2.calls =
      t.calls ++ [⟨self.baseUrl ++ js "/transfer", some (js "POST"),
        some (js "\x7b\"fromAccount\":" ++ quoteJSONString fromAccount ++ js ",\"toAccount\":"
          ++ quoteJSONString toAccount ++ js ",\"amount\":"
          ++ (if amount.isFinite then amount.toString else js "null") ++ js "\x7d"),
        [(js "Content-Type", js "application/json")]⟩] := by
  have a1 : ∀ x : JsString, self.baseUrl ++ js "/authToken" ++ js "?claim=" ++ x
      = self.baseUrl ++ js "/authToken?claim=" ++ x := by
    intro x; simp [js, utf16EncodeCodePoint]
  have a2 : ∀ x : JsString, self.baseUrl ++ js "/accounts/validate" ++ js "/" ++ x
      = self.baseUrl ++ js "/accounts/validate/" ++ x := by
    intro x; simp [js, utf16EncodeCodePoint]
  have a3 : ∀ x : JsString, self.baseUrl ++ js "/accounts/balance" ++ js "/" ++ x
      = self.baseUrl ++ js "/accounts/balance/" ++ x := by
    intro x; simp [js, utf16EncodeCodePoint]
  refine ⟨?_, ?_, ?_, ?_, ?_⟩
  · rw [getAuthToken_run]
    cases encodeURIComponent claim with
    | error e => rfl
    | ok encoded => simp only [stringify_credentials, a1]
  · rw [listAccounts_run]
  · rw [validateAccount_run]
    cases encodeURIComponent accountId with
    | error e => rfl
    | ok encoded => simp only [a2]
  · rw [getAccountBalance_run]
    cases encodeURIComponent accountId with
    | error e => rfl
    | ok encoded => simp only [a3]
  · rw [transferFunds_run]
    simp only [stringify_transfer]

/-- The requests of `getAuthToken('enquiry', 'alice', 'any')` and of
`transferFunds('ACC1000', 'ACC1001', 50)` at the default base URL. -/
theorem recorded_requests_example :
    (BankingApiClient.getAuthToken (fun _ _ => Except.ok ⟨200, js "OK", Except.ok (js "1")⟩)
        (BankingApiClient.new none) (js "enquiry") (js "alice") (js "any") Trace.empty).2.calls
      = [⟨js "http://localhost:8123/authToken?claim=enquiry", some (js "POST"),
          some (js "\x7b\"username\":\"alice\",\"password\":\"any\"\x7d"),
          [(js "Content-Type", js "application/json")]⟩] ∧
    (BankingApiClient.transferFunds (fun _ _ => Except.ok ⟨200, js "OK", Except.ok (js "1")⟩)
        (BankingApiClient.new none) (js "ACC1000") (js "ACC1001") ⟨js "50"⟩ Trace.empty).2.calls
      = [⟨js "http://localhost:8123/transfer", some (js "POST"),
          some (js "\x7b\"fromAccount\":\"ACC1000\",\"toAccount\":\"ACC1001\",\"amount\":50\x7d"),
          [(js "Content-Type", js "application/json")]⟩] := by
  decide

/-- C7 as stated fails: with a claim that is an unpaired surrogate,
`encodeURIComponent` throws, so `getAuthToken` throws a `URIError` and issues
no request at all. -/
theorem claim_unpaired_surrogate_counterexample :
    BankingApiClient.getAuthToken (fun _ _ => Except.ok ⟨200, js "OK", Except.ok (js "1")⟩)
        (BankingApiClient.new none) [codeUnit 0xDC00] (js "alice") (js "any") Trace.empty
      = (Except.error uriMalformed, Trace.empty) ∧
    (BankingApiClient.getAuthToken (fun _ _ => Except.ok ⟨200, js "OK", Except.ok (js "1")⟩)
        (BankingApiClient.new none) [codeUnit 0xDC00] (js "alice") (js "any")
        Trace.empty).2.calls = [] := by
  decide

/-- C7, amended: for a claim and an account identifier without an unpaired
surrogate, `encodeURIComponent` gives their percent-encoded forms and each
method issues exactly the request of the interface table, with the header
`Content-Type: application/json` and nothing else in the headers:
`getAuthToken` a `POST` to `baseUrl + '/authToken?claim='` followed by the
encoded claim, with the JSON text of `{username, password}` as body,
`listAccounts` a `GET` to `baseUrl + '/accounts'`, `validateAccount` and
`getAccountBalance` a `GET` to `baseUrl + '/accounts/validate/'` and
`baseUrl + '/accounts/balance/'` followed by the encoded identifier,
`transferFunds` a `POST` to `baseUrl + '/transfer'` with the JSON text of
`{fromAccount, toAccount, amount}`. -/
theorem wellFormed_requests_as_in_interface_table (net : Network) (self : BankingApiClient)
    (t : Trace) (claim username password accountId fromAccount toAccount : JsString)
    (amount : JsNumber) (hclaim : isWellFormedUnicode claim = true)
    (hid : isWellFormedUnicode accountId = true) :
    ∃ encodedClaim encodedId : JsString,
      encodeURIComponent claim = Except.ok encodedClaim ∧
      encodeURIComponent accountId = Except.ok encodedId ∧
      (BankingApiClient.getAuthToken net self claim username password t).2.calls =
        t.calls ++ [⟨self.baseUrl ++ js "/authToken?claim=" ++ encodedClaim, some (js "POST"),
          some (js "\x7b\"username\":" ++ quoteJSONString username ++ js ",\"password\":"
            ++ quoteJSONString password ++ js "\x7d"),
          [(js "Content-Type", js "application/json")]⟩] ∧
      (BankingApiClient.listAccounts net self t).2.calls =
        t.calls ++ [⟨self.baseUrl ++ js "/accounts", some (js "GET"), none,
          [(js "Content-Type", js "application/json")]⟩] ∧
      (BankingApiClient.validateAccount net self accountId t).2.calls =
        t.calls ++ [⟨self.baseUrl ++ js "/accounts/validate/" ++ encodedId, some (js "GET"),
          none, [(js "Content-Type", js "application/json")]⟩] ∧
      (BankingApiClient.getAccountBalance net self accountId t).2.calls =
        t.calls ++ [⟨self.baseUrl ++ js "/accounts/balance/" ++ encodedId, some (js "GET"),
          none, [(js "Content-Type", js "application/json")]⟩] ∧
      (BankingApiClient.transferFunds net self fromAccount toAccount amount t).2.calls =
        t.calls ++ [⟨self.baseUrl ++ js "/transfer", some (js "POST"),
          some (js "\x7b\"fromAccount\":" ++ quoteJSONString fromAccount ++ js ",\"toAccount\":"
            ++ quoteJSONString toAccount ++ js ",\"amount\":"
            ++ (if amount.isFinite then amount.toString else js "null") ++ js "\x7d"),
          [(js "Content-Type", js "application/json")]⟩] := by
  obtain ⟨encodedClaim, hc, _⟩ := decodeURIComponent_encodeURIComponent claim hclaim
  obtain ⟨encodedId, hi, _⟩ := decodeURIComponent_encodeURIComponent accountId hid
  obtain ⟨r1, r2, r3, r4, r5⟩ := recorded_requests net self t claim username password accountId
    fromAccount toAccount amount
  rw [hc] at r1
  rw [hi] at r3 r4
  exact ⟨encodedClaim, encodedId, hc, hi, r1, r2, r3, r4, r5⟩

/-- C7, amended, on calls of the demo: the claim `enquiry` and the identifier
`ACC1000` have no unpaired surrogate, and the requests of
`getAuthToken('enquiry', 'alice', 'any')`, `validateAccount('ACC1000')` and
`transferFunds('ACC1000', 'ACC1001', 50)` at the default base URL are those of
the table. -/
theorem wellFormed_requests_as_in_interface_table_witness :
    isWellFormedUnicode (js "enquiry") = true ∧ isWellFormedUnicode (js "ACC1000") = true ∧
    (BankingApiClient.getAuthToken (fun _ _ => Except.ok ⟨200, js "OK", Except.ok (js "1")⟩)
        (BankingApiClient.new none) (js "enquiry") (js "alice") (js "any") Trace.empty).2.calls
      = [⟨js "http://localhost:8123/authToken?claim=enquiry", some (js "POST"),
          some (js "\x7b\"username\":\"alice\",\"password\":\"any\"\x7d"),
          [(js "Content-Type", js "application/json")]⟩] ∧
    (BankingApiClient.validateAccount (fun _ _ => Except.ok ⟨200, js "OK", Except.ok (js "1")⟩)
        (BankingApiClient.new none) (js "ACC1000") Trace.empty).2.calls
      = [⟨js "http://localhost:8123/accounts/validate/ACC1000", some (js "GET"), none,
          [(js "Content-Type", js "application/json")]⟩] ∧
    (BankingApiClient.transferFunds (fun _ _ => Except.ok ⟨200, js "OK", Except.ok (js "1")⟩)
        (BankingApiClient.new none) (js "ACC1000") (js "ACC1001") ⟨js "50"⟩ Trace.empty).2.calls
      = [⟨js "http://localhost:8123/transfer", some (js "POST"),
          some (js "\x7b\"fromAccount\":\"ACC1000\",\"toAccount\":\"ACC1001\",\"amount\":50\x7d"),
          [(js "Content-Type", js "application/json")]⟩] := by
  obtain ⟨encodedClaim, encodedId, hc, hi, r1, _, r3, _, r5⟩ :=
    wellFormed_requests_as_in_interface_table
      (fun _ _ => Except.ok ⟨200, js "OK", Except.ok (js "1")⟩) (BankingApiClient.new none)
      Trace.empty (js "enquiry") (js "alice") (js "any") (js "ACC1000") (js "ACC1000")
      (js "ACC1001") ⟨js "50"⟩ (by decide) (by decide)
  have hc2 : encodeURIComponent (js "enquiry") = Except.ok (js "enquiry") := by decide
  have hi2 : encodeURIComponent (js "ACC1000") = Except.ok (js "ACC1000") := by decide
  rw [hc2] at hc
  rw [hi2] at hi
  cases hc
  cases hi
  exact ⟨by decide, by decide, r1.trans (by decide), r3.trans (by decide),
    r5.trans (by decide)⟩

/-! ## Percent-encoded identifiers (C6, C10) -/

theorem hexDigitUpper_unescaped (d : Nat) (hd : d < 16) :
    isUnescaped (hexDigitUpper d) = true := by
  interval_cases d <;> decide

theorem percentEscape_safe (b : Nat) (hb : b < 256) :
    ∀ u ∈ percentEscape b, isUnescaped u = true ∨ u = codeUnit 37 := by
  intro u hu
  simp only [percentEscape, List.mem_cons, List.mem_singleton, List.not_mem_nil, or_false] at hu
  rcases hu with rfl | rfl | rfl
  · exact Or.inr rfl
  · exact Or.inl (hexDigitUpper_unescaped _ (by omega))
  · exact Or.inl (hexDigitUpper_unescaped _ (by omega))

theorem utf8Encode_lt (cp : Nat) (h : cp < 0x110000) : ∀ b ∈ utf8Encode cp, b < 256 := by
  intro b hb
  unfold utf8Encode at hb
  split_ifs at hb <;> simp at hb <;> omega

theorem escapeCodePoint_safe (cp : Nat) (h : cp < 0x110000) :
    ∀ u ∈ escapeCodePoint cp, isUnescaped u = true ∨ u = codeUnit 37 := by
  intro u hu
  simp only [escapeCodePoint, List.mem_flatMap] at hu
  obtain ⟨b, hb, hub⟩ := hu
  exact percentEscape_safe b (utf8Encode_lt cp h b hb) u hub

theorem encodeURIComponent_safe (n : Nat) : ∀ s e : JsString, s.length ≤ n →
    encodeURIComponent s = Except.ok e →
      ∀ u ∈ e, isUnescaped u = true ∨ u = codeUnit 37 := by
  induction n with
  | zero =>
    intro s e hs he
    have : s = [] := List.length_eq_zero.mp (by omega)
    subst this
    cases he
    simp
  | succ n ih =>
    intro s e hs he
    cases s with
    | nil => cases he; simp
    | cons c rest =>
      have hrest : rest.length ≤ n := by simpa using hs
      rw [encodeURIComponent_cons] at he
      by_cases hu : isUnescaped c = true
      · simp only [hu, if_true] at he
        cases hr : encodeURIComponent rest with
        | error x => simp [hr] at he
        | ok r =>
          simp only [hr, Except.ok.injEq] at he
          subst he
          intro u hmem
          rcases List.mem_cons.mp hmem with rfl | h2
          · exact Or.inl hu
          · exact ih rest r hrest hr u h2
      · simp only [hu, Bool.false_eq_true, if_false] at he
        by_cases hl : isLeadingSurrogate c = true
        · simp only [hl, if_true] at he
          cases rest with
          | nil => simp at he
          | cons d rest2 =>
            simp only at he
            by_cases hd : isTrailingSurrogate d = true
            · simp only [hd, if_true] at he
              cases hr : encodeURIComponent rest2 with
              | error x => simp [hr] at he
              | ok r =>
                simp only [hr, Except.ok.injEq] at he
                subst he
                intro u hmem
                rcases List.mem_append.mp hmem with h1 | h2
                · exact escapeCodePoint_safe _ (utf16_pair c d hl hd).2.1 u h1
                · exact ih rest2 r (by simp at hrest; omega) hr u h2
            · simp [hd] at he
        · simp only [hl, Bool.false_eq_true, if_false] at he
          by_cases ht : isTrailingSurrogate c = true
          · simp [ht] at he
          · simp only [ht, Bool.false_eq_true, if_false] at he
            cases hr : encodeURIComponent rest with
            | error x => simp [hr] at he
            | ok r =>
              simp only [hr, Except.ok.injEq] at he
              subst he
              intro u hmem
              rcases List.mem_append.mp hmem with h1 | h2
              · exact escapeCodePoint_safe _ (by have := c.isLt; omega) u h1
              · exact ih rest r hrest hr u h2

theorem delimiter_not_safe : ∀ c ∈ js "/?#&= ", ¬ (isUnescaped c = true ∨ c = codeUnit 37) := by
  have e : js "/?#&= "
      = [codeUnit 47, codeUnit 63, codeUnit 35, codeUnit 38, codeUnit 61, codeUnit 32] := by
    decide
  rw [e]
  intro c hc
  simp only [List.mem_cons, List.not_mem_nil, or_false] at hc
  rcases hc with rfl | rfl | rfl | rfl | rfl | rfl <;> decide

theorem encodeURIComponent_no_delimiter (s e : JsString)
    (h : encodeURIComponent s = Except.ok e) : ∀ c ∈ js "/?#&= ", c ∉ e :=
  fun c hc hmem => delimiter_not_safe c hc (encodeURIComponent_safe s.length s e (le_refl _) h c hmem)

/-- C6 as stated fails: an identifier that is an unpaired surrogate is a string
for which `encodeURIComponent` throws, so `validateAccount` and
`getAccountBalance` throw a `URIError` and build no request URL at all. -/
theorem accountId_unpaired_surrogate_counterexample :
    BankingApiClient.validateAccount (fun _ _ => Except.ok ⟨200, js "OK", Except.ok (js "true")⟩)
        (BankingApiClient.new none) [codeUnit 0xD800] Trace.empty
      = (Except.error uriMalformed, Trace.empty) ∧
    BankingApiClient.getAccountBalance (fun _ _ => Except.ok ⟨200, js "OK", Except.ok (js "true")⟩)
        (BankingApiClient.new none) [codeUnit 0xD800] Trace.empty
      = (Except.error uriMalformed, Trace.empty) := by
  decide

/-- C6, amended: for every account identifier without an unpaired surrogate
(characters such as `/`, `?`, `#`, `%`, space and non-ASCII characters
included), `validateAccount` and `getAccountBalance` request the URL that ends
with the path segment `encodeURIComponent(accountId)`, the segment holds no
`/`, and `decodeURIComponent` of the segment is the identifier. -/
theorem accountId_segment_roundtrip (accountId : JsString)
    (h : isWellFormedUnicode accountId = true) (net : Network) (self : BankingApiClient)
    (t : Trace) :
    ∃ segment : JsString,
      encodeURIComponent accountId = Except.ok segment ∧
      (BankingApiClient.validateAccount net self accountId t).2.calls =
        t.calls ++ [⟨self.baseUrl ++ js "/accounts/validate/" ++ segment, some (js "GET"), none,
          [(js "Content-Type", js "application/json")]⟩] ∧
      (BankingApiClient.getAccountBalance net self accountId t).2.calls =
        t.calls ++ [⟨self.baseUrl ++ js "/accounts/balance/" ++ segment, some (js "GET"), none,
          [(js "Content-Type", js "application/json")]⟩] ∧
      codeUnit 47 ∉ segment ∧
      decodeURIComponent segment = Except.ok accountId := by
  obtain ⟨segment, henc, hdec⟩ := decodeURIComponent_encodeURIComponent accountId h
  have a2 : self.baseUrl ++ js "/accounts/validate" ++ js "/" ++ segment
      = self.baseUrl ++ js "/accounts/validate/" ++ segment := by
    simp [js, utf16EncodeCodePoint]
  have a3 : self.baseUrl ++ js "/accounts/balance" ++ js "/" ++ segment
      = self.baseUrl ++ js "/accounts/balance/" ++ segment := by
    simp [js, utf16EncodeCodePoint]
  refine ⟨segment, henc, ?_, ?_, ?_, hdec⟩
  · rw [validateAccount_run, henc]; simp only [a2]
  · rw [getAccountBalance_run, henc]; simp only [a3]
  · exact encodeURIComponent_no_delimiter accountId segment henc (codeUnit 47) (by decide)

/-- C6, amended, at the identifier `a/b c?é€😀#%`. -/
theorem accountId_segment_roundtrip_witness :
    isWellFormedUnicode (js "a/b c?é€😀#%") = true ∧
    ∃ segment : JsString,
      encodeURIComponent (js "a/b c?é€😀#%") = Except.ok segment ∧
      (BankingApiClient.validateAccount (fun _ _ => Except.ok ⟨200, js "OK", Except.ok (js "true")⟩)
          (BankingApiClient.new none) (js "a/b c?é€😀#%") Trace.empty).2.calls =
        Trace.empty.calls ++ [⟨(BankingApiClient.new none).baseUrl ++ js "/accounts/validate/"
          ++ segment, some (js "GET"), none, [(js "Content-Type", js "application/json")]⟩] ∧
      (BankingApiClient.getAccountBalance (fun _ _ => Except.ok ⟨200, js "OK", Except.ok (js "true")⟩)
          (BankingApiClient.new none) (js "a/b c?é€😀#%") Trace.empty).2.calls =
        Trace.empty.calls ++ [⟨(BankingApiClient.new none).baseUrl ++ js "/accounts/balance/"
          ++ segment, some (js "GET"), none, [(js "Content-Type", js "application/json")]⟩] ∧
      codeUnit 47 ∉ segment ∧
      decodeURIComponent segment = Except.ok (js "a/b c?é€😀#%") :=
  ⟨by decide, accountId_segment_roundtrip (js "a/b c?é€😀#%") (by decide)
    (fun _ _ => Except.ok ⟨200, js "OK", Except.ok (js "true")⟩) (BankingApiClient.new none) Trace.empty⟩

/-- C10: the segment `validateAccount` and `getAccountBalance` append after the
endpoint path, and the claim value `getAuthToken` puts in the query string,
consist of unescaped characters (ASCII letters, digits, `-_.!~*'()`) and `%`
only; none of `/`, `?`, `#`, `&`, `=` and space occurs in them, so the
identifier adds no path segment, query string or fragment to the URL. -/
theorem identifier_adds_no_delimiter (net : Network) (self : BankingApiClient) (t : Trace)
    (accountId claim username password segment query : JsString)
    (hid : encodeURIComponent accountId = Except.ok segment)
    (hclaim : encodeURIComponent claim = Except.ok query) :
    ((BankingApiClient.validateAccount net self accountId t).2.calls.map fun c => c.url) =
      (t.calls.map fun c => c.url) ++ [self.baseUrl ++ js "/accounts/validate/" ++ segment] ∧
    ((BankingApiClient.getAccountBalance net self accountId t).2.calls.map fun c => c.url) =
      (t.calls.map fun c => c.url) ++ [self.baseUrl ++ js "/accounts/balance/" ++ segment] ∧
    ((BankingApiClient.getAuthToken net self claim username password t).2.calls.map
        fun c => c.url) =
      (t.calls.map fun c => c.url) ++ [self.baseUrl ++ js "/authToken?claim=" ++ query] ∧
    (∀ c ∈ segment, isUnescaped c = true ∨ c = codeUnit 37) ∧
    (∀ c ∈ query, isUnescaped c = true ∨ c = codeUnit 37) ∧
    (∀ c ∈ js "/?#&= ", c ∉ segment) ∧
    (∀ c ∈ js "/?#&= ", c ∉ query) := by
  have a1 : self.baseUrl ++ js "/authToken" ++ js "?claim=" ++ query
      = self.baseUrl ++ js "/authToken?claim=" ++ query := by
    simp [js, utf16EncodeCodePoint]
  have a2 : self.baseUrl ++ js "/accounts/validate" ++ js "/" ++ segment
      = self.baseUrl ++ js "/accounts/validate/" ++ segment := by
    simp [js, utf16EncodeCodePoint]
  have a3 : self.baseUrl ++ js "/accounts/balance" ++ js "/" ++ segment
      = self.baseUrl ++ js "/accounts/balance/" ++ segment := by
    simp [js, utf16EncodeCodePoint]
  refine ⟨?_, ?_, ?_, ?_, ?_, ?_, ?_⟩
  · rw [validateAccount_run, hid]; simp only [List.map_append, List.map_cons, List.map_nil, a2]
  · rw [getAccountBalance_run, hid]; simp only [List.map_append, List.map_cons, List.map_nil, a3]
  · rw [getAuthToken_run, hclaim]; simp only [List.map_append, List.map_cons, List.map_nil, a1]
  · exact encodeURIComponent_safe accountId.length accountId segment (le_refl _) hid
  · exact encodeURIComponent_safe claim.length claim query (le_refl _) hclaim
  · exact encodeURIComponent_no_delimiter accountId segment hid
  · exact encodeURIComponent_no_delimiter claim query hclaim

/-- C10 at the identifier `a/b?c#d&e=f g` and the claim `x&y=z#w`. -/
theorem identifier_adds_no_delimiter_witness :
    encodeURIComponent (js "a/b?c#d&e=f g") = Except.ok (js "a%2Fb%3Fc%23d%26e%3Df%20g") ∧
    encodeURIComponent (js "x&y=z#w") = Except.ok (js "x%26y%3Dz%23w") ∧
    (∀ c ∈ js "/?#&= ", c ∉ js "a%2Fb%3Fc%23d%26e%3Df%20g") ∧
    (∀ c ∈ js "/?#&= ", c ∉ js "x%26y%3Dz%23w") :=
  ⟨by decide, by decide,
    (identifier_adds_no_delimiter (fun _ _ => Except.ok ⟨200, js "OK", Except.ok (js "true")⟩)
      (BankingApiClient.new none) Trace.empty (js "a/b?c#d&e=f g") (js "x&y=z#w") (js "alice")
      (js "any") (js "a%2Fb%3Fc%23d%26e%3Df%20g") (js "x%26y%3Dz%23w") (by decide)
      (by decide)).2.2.2.2.2.1,
    (identifier_adds_no_delimiter (fun _ _ => Except.ok ⟨200, js "OK", Except.ok (js "true")⟩)
      (BankingApiClient.new none) Trace.empty (js "a/b?c#d&e=f g") (js "x&y=z#w") (js "alice")
      (js "any") (js "a%2Fb%3Fc%23d%26e%3Df%20g") (js "x%26y%3Dz%23w") (by decide)
      (by decide)).2.2.2.2.2.2⟩

/-! ## `JSON.parse`: the fuel is enough -/

theorem skipWhiteSpace_length (s : JsString) : (skipWhiteSpace s).length ≤ s.length := by
  induction s with
  | nil => simp [skipWhiteSpace]
  | cons c rest ih =>
    rw [skipWhiteSpace]
    split
    · simp; omega
    · simp

theorem skipWhiteSpace_cons_length (s rest : JsString) (c : CodeUnit)
    (h : skipWhiteSpace s = c :: rest) : rest.length < s.length := by
  have := skipWhiteSpace_length s
  rw [h] at this
  simpa using this

theorem takeDigits_length (s : JsString) : (takeDigits s).2.length ≤ s.length := by
  induction s with
  | nil => simp [takeDigits]
  | cons c rest ih =>
    rw [takeDigits]
    split
    · simp; omega
    · simp

theorem parseJSONString_cons (c : CodeUnit) (rest : JsString) :
    parseJSONString (c :: rest) =
      if c.val = 34 then some ([], rest)
      else if c.val = 92 then
        match rest with
        | [] => none
        | e :: rest2 =>
          if e.val = 117 then
            match rest2 with
            | h1 :: h2 :: h3 :: h4 :: rest3 =>
              match parseHex4 h1 h2 h3 h4 with
              | some u =>
                match parseJSONString rest3 with
                | some (s, r) => some (u :: s, r)
                | none => none
              | none => none
            | _ => none
          else
            match simpleEscape e with
            | some u =>
              match parseJSONString rest2 with
              | some (s, r) => some (u :: s, r)
              | none => none
            | none => none
      else if c.val < 0x20 then none
      else
        match parseJSONString rest with
        | some (s, r) => some (c :: s, r)
        | none => none := by
  rcases rest with _ | ⟨e, _ | ⟨h1, _ | ⟨h2, _ | ⟨h3, _ | ⟨h4, rest3⟩⟩⟩⟩⟩ <;> rfl

theorem parseJSONString_length (n : Nat) : ∀ (s v r : JsString), s.length ≤ n →
    parseJSONString s = some (v, r) → r.length < s.length := by
  induction n with
  | zero =>
    intro s v r hs h
    have : s = [] := List.length_eq_zero.mp (by omega)
    subst this
    simp [parseJSONString] at h
  | succ n ih =>
    intro s v r hs h
    cases s with
    | nil => simp [parseJSONString] at h
    | cons c rest =>
      have hrest : rest.length ≤ n := by simpa using hs
      rw [parseJSONString_cons] at h
      split at h
      · simp only [Option.some.injEq, Prod.mk.injEq] at h
        rw [← h.2]; simp
      · split at h
        · split at h
          · simp at h
          · rename_i e rest2
            split at h
            · split at h
              · rename_i h1 h2 h3 h4 rest3
                split at h
                · split at h
                  · rename_i s1 r1 heq
                    simp only [Option.some.injEq, Prod.mk.injEq] at h
                    have := ih rest3 s1 r1 (by simp at hrest; omega) heq
                    rw [← h.2]; simp; omega
                  · simp at h
                · simp at h
              · simp at h
            · split at h
              · split at h
                · rename_i s1 r1 heq
                  simp only [Option.some.injEq, Prod.mk.injEq] at h
                  have := ih rest2 s1 r1 (by simp at hrest; omega) heq
                  rw [← h.2]; simp; omega
                · simp at h
              · simp at h
        · split at h
          · simp at h
          · split at h
            · rename_i s1 r1 heq
              simp only [Option.some.injEq, Prod.mk.injEq] at h
              have := ih rest s1 r1 hrest heq
              rw [← h.2]; simp; omega
            · simp at h

theorem numberSign_length (s : JsString) : (numberSign s).2.length ≤ s.length := by
  unfold numberSign
  split
  · split <;> simp
  · simp

theorem numberInteger_length (s t r : JsString) (h : numberInteger s = some (t, r)) :
    r.length < s.length := by
  unfold numberInteger at h
  split at h
  · rename_i c rest
    split at h
    · simp only [Option.some.injEq, Prod.mk.injEq] at h
      rw [← h.2]; simp
    · split at h
      · simp only [Option.some.injEq, Prod.mk.injEq] at h
        have := takeDigits_length rest
        rw [← h.2]; simp; omega
      · simp at h
  · simp at h

theorem numberFraction_length (s t r : JsString) (h : numberFraction s = some (t, r)) :
    r.length ≤ s.length := by
  unfold numberFraction at h
  split at h
  · rename_i c rest
    split at h
    · split at h
      · simp at h
      · simp only [Option.some.injEq, Prod.mk.injEq] at h
        have := takeDigits_length rest
        rw [← h.2]; simp; omega
    · simp only [Option.some.injEq, Prod.mk.injEq] at h
      rw [← h.2]
  · simp only [Option.some.injEq, Prod.mk.injEq] at h
    rw [← h.2]

theorem exponentSign_length (s : JsString) : (exponentSign s).2.length ≤ s.length := by
  unfold exponentSign
  split
  · split <;> simp
  · simp

theorem numberExponent_length (s t r : JsString) (h : numberExponent s = some (t, r)) :
    r.length ≤ s.length := by
  unfold numberExponent at h
  split at h
  · rename_i c rest
    split at h
    · split at h
      · simp at h
      · simp only [Option.some.injEq, Prod.mk.injEq] at h
        have a1 := exponentSign_length rest
        have a2 := takeDigits_length (exponentSign rest).2
        rw [← h.2]; simp; omega
    · simp only [Option.some.injEq, Prod.mk.injEq] at h
      rw [← h.2]
  · simp only [Option.some.injEq, Prod.mk.injEq] at h
    rw [← h.2]

theorem parseJSONNumber_length (s t r : JsString) (h : parseJSONNumber s = some (t, r)) :
    r.length < s.length := by
  unfold parseJSONNumber at h
  split at h
  · simp at h
  · rename_i i s1 h1
    split at h
    · simp at h
    · rename_i f s2 h2
      split at h
      · simp at h
      · rename_i e s3 h3
        simp only [Option.some.injEq, Prod.mk.injEq] at h
        have a0 := numberSign_length s
        have a1 := numberInteger_length _ _ _ h1
        have a2 := numberFraction_length _ _ _ h2
        have a3 := numberExponent_length _ _ _ h3
        rw [← h.2]; omega

theorem stripLiteral_length (literal s r : JsString) (h : stripLiteral literal s = some r) :
    r.length ≤ s.length - literal.length := by
  unfold stripLiteral at h
  split at h
  · simp only [Option.some.injEq] at h
    rw [← h]; simp
  · simp at h

theorem parseJSONScalar_length (toNumber : JsString → JsNumber) (c : CodeUnit)
    (rest : JsString) (v : JsValue) (r : JsString)
    (h : parseJSONScalar toNumber c rest = some (v, r)) : r.length ≤ rest.length := by
  unfold parseJSONScalar at h
  split at h
  · split at h
    · rename_i str r1 heq
      simp only [Option.some.injEq, Prod.mk.injEq] at h
      have := parseJSONString_length rest.length rest str r1 (le_refl _) heq
      rw [← h.2]; omega
    · simp at h
  · split at h
    · split at h
      · rename_i r1 heq
        simp only [Option.some.injEq, Prod.mk.injEq] at h
        have := stripLiteral_length _ _ _ heq
        have e : (js "true").length = 4 := by decide
        rw [e] at this
        rw [← h.2]; simp at this; omega
      · simp at h
    · split at h
      · split at h
        · rename_i r1 heq
          simp only [Option.some.injEq, Prod.mk.injEq] at h
          have := stripLiteral_length _ _ _ heq
          have e : (js "false").length = 5 := by decide
          rw [e] at this
          rw [← h.2]; simp at this; omega
        · simp at h
      · split at h
        · split at h
          · rename_i r1 heq
            simp only [Option.some.injEq, Prod.mk.injEq] at h
            have := stripLiteral_length _ _ _ heq
            have e : (js "null").length = 4 := by decide
            rw [e] at this
            rw [← h.2]; simp at this; omega
          · simp at h
        · split at h
          · rename_i t r1 heq
            simp only [Option.some.injEq, Prod.mk.injEq] at h
            have := parseJSONNumber_length _ _ _ heq
            rw [← h.2]; simp at this; omega
          · simp at h

/-- A parse that succeeds with some fuel consumes at least one code unit and
succeeds, with the same result, with any fuel from twice the length of the
input plus two (plus three for the elements and the members) on. -/
theorem parseJSON_adequate (toNumber : JsString → JsNumber) (f : Nat) :
    (∀ s v r, parseJSONValue toNumber f s = some (v, r) →
      r.length < s.length ∧
        ∀ g, 2 * s.length + 2 ≤ g → parseJSONValue toNumber g s = some (v, r)) ∧
    (∀ s vs r, parseJSONElements toNumber f s = some (vs, r) →
      r.length < s.length ∧
        ∀ g, 2 * s.length + 3 ≤ g → parseJSONElements toNumber g s = some (vs, r)) ∧
    (∀ m s ms r, parseJSONMembers toNumber f m s = some (ms, r) →
      r.length < s.length ∧
        ∀ g, 2 * s.length + 3 ≤ g → parseJSONMembers toNumber g m s = some (ms, r)) := by
  induction f with
  | zero =>
    refine ⟨?_, ?_, ?_⟩
    · intro s v r h; simp [parseJSONValue] at h
    · intro s vs r h; simp [parseJSONElements] at h
    · intro m s ms r h; simp [parseJSONMembers] at h
  | succ n ih =>
    obtain ⟨ihv, ihe, ihm⟩ := ih
    refine ⟨?_, ?_, ?_⟩
    · intro s v r h
      rw [parseJSONValue] at h
      split at h
      · simp at h
      · rename_i c rest hs
        have hlen := skipWhiteSpace_cons_length s rest c hs
        by_cases h91 : c.val = 91
        · simp only [h91, if_true] at h
          split at h
          · rename_i d rest2 hs2
            have hlen2 := skipWhiteSpace_cons_length rest rest2 d hs2
            by_cases h93 : d.val = 93
            · simp only [h93, if_true, Option.some.injEq, Prod.mk.injEq] at h
              obtain ⟨rfl, rfl⟩ := h
              refine ⟨by omega, ?_⟩
              intro g hg
              obtain ⟨g', rfl⟩ : ∃ g', g = g' + 1 := ⟨g - 1, by omega⟩
              rw [parseJSONValue]
              simp only [hs, h91, if_true, hs2, h93]
            · simp only [h93, if_false] at h
              split at h
              · rename_i items r1 heq
                simp only [Option.some.injEq, Prod.mk.injEq] at h
                obtain ⟨rfl, rfl⟩ := h
                obtain ⟨l1, ad⟩ := ihe _ _ _ heq
                refine ⟨by omega, ?_⟩
                intro g hg
                obtain ⟨g', rfl⟩ : ∃ g', g = g' + 1 := ⟨g - 1, by omega⟩
                rw [parseJSONValue]
                simp only [hs, h91, if_true, hs2, h93, if_false, ad g' (by omega)]
              · simp at h
          · simp at h
        · simp only [h91, if_false] at h
          by_cases h123 : c.val = 123
          · simp only [h123, if_true] at h
            split at h
            · rename_i d rest2 hs2
              have hlen2 := skipWhiteSpace_cons_length rest rest2 d hs2
              by_cases h125 : d.val = 125
              · simp only [h125, if_true, Option.some.injEq, Prod.mk.injEq] at h
                obtain ⟨rfl, rfl⟩ := h
                refine ⟨by omega, ?_⟩
                intro g hg
                obtain ⟨g', rfl⟩ : ∃ g', g = g' + 1 := ⟨g - 1, by omega⟩
                rw [parseJSONValue]
                simp only [hs, h123, (by decide : (123 : Nat) ≠ 91), if_false, if_true, hs2, h125]
              · simp only [h125, if_false] at h
                split at h
                · rename_i members r1 heq
                  simp only [Option.some.injEq, Prod.mk.injEq] at h
                  obtain ⟨rfl, rfl⟩ := h
                  obtain ⟨l1, ad⟩ := ihm _ _ _ _ heq
                  refine ⟨by omega, ?_⟩
                  intro g hg
                  obtain ⟨g', rfl⟩ : ∃ g', g = g' + 1 := ⟨g - 1, by omega⟩
                  rw [parseJSONValue]
                  simp only [hs, h123, (by decide : (123 : Nat) ≠ 91), if_false, if_true, hs2, h125,
                    ad g' (by omega)]
                · simp at h
            · simp at h
          · simp only [h123, if_false] at h
            have l1 := parseJSONScalar_length toNumber c rest v r h
            refine ⟨by omega, ?_⟩
            intro g hg
            obtain ⟨g', rfl⟩ : ∃ g', g = g' + 1 := ⟨g - 1, by omega⟩
            rw [parseJSONValue]
            simp only [hs, h91, if_false, h123, h]
    · intro s vs r h
      rw [parseJSONElements] at h
      split at h
      · simp at h
      · rename_i v r1 heq
        obtain ⟨l1, adv⟩ := ihv _ _ _ heq
        split at h
        · rename_i c rest hs
          have hlen := skipWhiteSpace_cons_length r1 rest c hs
          by_cases h44 : c.val = 44
          · simp only [h44, if_true] at h
            split at h
            · rename_i vs1 r2 heq2
              simp only [Option.some.injEq, Prod.mk.injEq] at h
              obtain ⟨rfl, rfl⟩ := h
              obtain ⟨l2, ade⟩ := ihe _ _ _ heq2
              refine ⟨by omega, ?_⟩
              intro g hg
              obtain ⟨g', rfl⟩ : ∃ g', g = g' + 1 := ⟨g - 1, by omega⟩
              rw [parseJSONElements]
              simp only [adv g' (by omega), hs, h44, if_true, ade g' (by omega)]
            · simp at h
          · simp only [h44, if_false] at h
            by_cases h93 : c.val = 93
            · simp only [h93, if_true, Option.some.injEq, Prod.mk.injEq] at h
              obtain ⟨rfl, rfl⟩ := h
              refine ⟨by omega, ?_⟩
              intro g hg
              obtain ⟨g', rfl⟩ : ∃ g', g = g' + 1 := ⟨g - 1, by omega⟩
              rw [parseJSONElements]
              simp only [adv g' (by omega), hs, h93, (by decide : (93 : Nat) ≠ 44), if_false, if_true]
            · simp [h93] at h
        · simp at h
    · intro m s ms r h
      rw [parseJSONMembers] at h
      split at h
      · rename_i q afterQuote hs
        have hlen := skipWhiteSpace_cons_length s afterQuote q hs
        by_cases h34 : q.val = 34
        · simp only [h34, if_true] at h
          split at h
          · simp at h
          · rename_i key afterKey hkey
            have lkey := parseJSONString_length afterQuote.length afterQuote key afterKey
              (le_refl _) hkey
            split at h
            · rename_i colon afterColon hs2
              have hlen2 := skipWhiteSpace_cons_length afterKey afterColon colon hs2
              by_cases h58 : colon.val = 58
              · simp only [h58, if_true] at h
                split at h
                · simp at h
                · rename_i v r1 heq
                  obtain ⟨l1, adv⟩ := ihv _ _ _ heq
                  split at h
                  · rename_i c rest hs3
                    have hlen3 := skipWhiteSpace_cons_length r1 rest c hs3
                    by_cases h44 : c.val = 44
                    · simp only [h44, if_true] at h
                      obtain ⟨l2, adm⟩ := ihm _ _ _ _ h
                      refine ⟨by omega, ?_⟩
                      intro g hg
                      obtain ⟨g', rfl⟩ : ∃ g', g = g' + 1 := ⟨g - 1, by omega⟩
                      rw [parseJSONMembers]
                      simp only [hs, h34, if_true, hkey, hs2, h58, adv g' (by omega), hs3, h44,
                        adm g' (by omega)]
                    · simp only [h44, if_false] at h
                      by_cases h125 : c.val = 125
                      · simp only [h125, if_true, Option.some.injEq, Prod.mk.injEq] at h
                        obtain ⟨rfl, rfl⟩ := h
                        refine ⟨by omega, ?_⟩
                        intro g hg
                        obtain ⟨g', rfl⟩ : ∃ g', g = g' + 1 := ⟨g - 1, by omega⟩
                        rw [parseJSONMembers]
                        simp only [hs, h34, if_true, hkey, hs2, h58, adv g' (by omega), hs3, h125,
                          (by decide : (125 : Nat) ≠ 44), if_false]
                      · simp [h125] at h
                  · simp at h
              · simp [h58] at h
            · simp at h
        · simp [h34] at h
      · simp at h

/-- The fuel `JSON.parse` gives is enough: any larger amount gives the same
result, so the result is that of the grammar and not of the bound. -/
theorem parseJSONValue_fuel (toNumber : JsString → JsNumber) (s : JsString) (fuel : Nat)
    (h : 2 * s.length + 2 ≤ fuel) :
    parseJSONValue toNumber fuel s = parseJSONValue toNumber (2 * s.length + 2) s := by
  cases hf : parseJSONValue toNumber fuel s with
  | some p =>
    obtain ⟨v, r⟩ := p
    exact ((parseJSON_adequate toNumber fuel).1 s v r hf).2 _ (le_refl _) |>.symm
  | none =>
    cases hb : parseJSONValue toNumber (2 * s.length + 2) s with
    | none => rfl
    | some p =>
      obtain ⟨v, r⟩ := p
      have := ((parseJSON_adequate toNumber _).1 s v r hb).2 fuel h
      rw [hf] at this
      exact this

/-! ## `formatJSON` (C9) -/

/-- C9: for every text `s`, `formatJSON(s)` is `JSON.stringify(v, null, 2)`
when `JSON.parse(s)` gives the value `v`, and `s` unchanged when `JSON.parse(s)`
throws. For the text `{"a":1}` the result is the three lines `{`, `  "a": 1`
and `}` (the Number 1 prints as `1`); for the text `plain` it is `plain`. -/
theorem formatJSON_text (toNumber : JsString → JsNumber) (s : JsString)
    (hone : (toNumber (js "1")).toString = js "1") :
    formatJSON toNumber (JsValue.string s) =
      (match JSON.parse toNumber s with
        | Except.ok parsed => JSON.stringify parsed 2
        | Except.error _ => s) ∧
    JSON.parse toNumber (js "\x7b\"a\":1\x7d")
      = Except.ok (JsValue.object [(js "a", JsValue.number (toNumber (js "1")))]) ∧
    formatJSON toNumber (JsValue.string (js "\x7b\"a\":1\x7d")) = js "\x7b\n  \"a\": 1\n\x7d" ∧
    JSON.parse toNumber (js "plain") = Except.error jsonSyntaxError ∧
    formatJSON toNumber (JsValue.string (js "plain")) = js "plain" := by
  have hp : JSON.parse toNumber (js "\x7b\"a\":1\x7d")
      = Except.ok (JsValue.object [(js "a", JsValue.number (toNumber (js "1")))]) := by
    rfl
  have hq : JSON.parse toNumber (js "plain") = Except.error jsonSyntaxError := by
    rfl
  refine ⟨rfl, hp, ?_, hq, ?_⟩
  · have hfin : (toNumber (js "1")).isFinite = true := by
      rw [JsNumber.isFinite, hone]
      decide
    have q : quoteJSONString (js "a") = js "\"a\"" := by decide
    simp only [formatJSON, hp, JSON.stringify, serializeJSONProperty, serializeJSONMembers,
      hfin, if_true, hone, q]
    decide
  · simp only [formatJSON, hq]

/-- C9 with a conversion that reads the literal `1` as the Number that prints
as `1`. -/
theorem formatJSON_text_witness :
    formatJSON (fun text => ⟨text⟩) (JsValue.string (js "\x7b\"a\":1\x7d"))
      = js "\x7b\n  \"a\": 1\n\x7d" ∧
    formatJSON (fun text => ⟨text⟩) (JsValue.string (js "plain")) = js "plain" :=
  ⟨(formatJSON_text (fun text => ⟨text⟩) (js "plain") rfl).2.2.1,
    (formatJSON_text (fun text => ⟨text⟩) (js "plain") rfl).2.2.2.2⟩

/-- Further texts: nested values are indented by two spaces a level, a
duplicate key keeps its first place and its last value, an array index key
comes first, escapes are read and written; text with a trailing comma or
with something after the value is returned as it is. -/
theorem formatJSON_examples :
    formatJSON (fun text => ⟨text⟩)
        (JsValue.string (js " \x7b\"b\":[1,2,\x7b\x7d,[]],\"1\":\"x\\n\\u00e9\",\"b\":null\x7d "))
      = js "\x7b\n  \"1\": \"x\\né\",\n  \"b\": null\n\x7d" ∧
    formatJSON (fun text => ⟨text⟩) (JsValue.string (js "[1, [true,false], \"a\"]"))
      = js "[\n  1,\n  [\n    true,\n    false\n  ],\n  \"a\"\n]" ∧
    formatJSON (fun text => ⟨text⟩) (JsValue.string (js "[1,]")) = js "[1,]" ∧
    formatJSON (fun text => ⟨text⟩) (JsValue.string (js "null x")) = js "null x" ∧
    JSON.parse (fun text => ⟨text⟩) (js " [-0.5e+10, 0, 12E3] ")
      = Except.ok (JsValue.array [JsValue.number ⟨js "-0.5e+10"⟩, JsValue.number ⟨js "0"⟩,
          JsValue.number ⟨js "12E3"⟩]) ∧
    JSON.parse (fun text => ⟨text⟩) (js "01") = Except.error jsonSyntaxError ∧
    JSON.parse (fun text => ⟨text⟩) (js "1.") = Except.error jsonSyntaxError ∧
    JSON.parse (fun text => ⟨text⟩) (js "-") = Except.error jsonSyntaxError ∧
    JSON.parse (fun text => ⟨text⟩) (js "1e") = Except.error jsonSyntaxError ∧
    JSON.parse (fun text => ⟨text⟩) (js "\"a\tb\"") = Except.error jsonSyntaxError ∧
    JSON.parse (fun text => ⟨text⟩) (js "") = Except.error jsonSyntaxError :=
  ⟨by decide, by decide, by decide, by decide, rfl, rfl, rfl, rfl, rfl, rfl, rfl⟩

/-! ## The demo driver (C8) -/

set_option maxRecDepth 100000 in
theorem demo_run_all_fail :
    runDemo (fun _ _ => Except.error ⟨ErrorKind.TypeError, js "fetch failed"⟩) none Trace.empty
      = (Except.ok (), ⟨(List.range 9).map (demoRequest (js "http://localhost:8123")),
          demoConsole (js "http://localhost:8123")
            (demoOutcome (fun _ _ => Except.error ⟨ErrorKind.TypeError, js "fetch failed"⟩)
              (js "http://localhost:8123"))⟩) := by
  decide

theorem consoleLog_apply (line : JsString) (t : Trace) :
    consoleLog line t = (Except.ok (), { t with console := t.console ++ [line] }) := rfl

theorem JsM.tryCatch_apply {α : Type} (body : JsM α) (handler : JsError → JsM α) (t : Trace) :
    JsM.tryCatch body handler t =
      match body t with
      | (Except.ok a, t1) => (Except.ok a, t1)
      | (Except.error e, t1) => handler e t1 := rfl

/-- A test of the form `log(intro); response = await call; log(response)`
inside `runTest`: it never throws, and logs the intro and the test line. -/
theorem runTest_logged (testName intro : JsString) (call : JsM JsString) (t : Trace) :
    runTest testName (do log intro; let response ← call; log response) t =
      (Except.ok (),
        { (call { t with console := t.console ++ [intro] }).2 with
          console := (call { t with console := t.console ++ [intro] }).2.console
            ++ [testLine testName (call { t with console := t.console ++ [intro] }).1] }) := by
  simp only [runTest, JsM.tryCatch_apply, JsM.bind_apply, log, consoleLog_apply]
  rcases h : call { t with console := t.console ++ [intro] } with ⟨o, t1⟩
  cases o <;> rfl

/-- One account of test 2.2: the handler inside the test catches the error,
so the statement never throws, and logs the line of the account. -/
theorem validate_logged (label errorLabel : JsString) (call : JsM JsString) (t : Trace)
    (hl : errorLabel = label ++ js "Error - ") :
    JsM.tryCatch (do let response ← call; log (label ++ response))
        (fun error => log (errorLabel ++ error.message)) t =
      (Except.ok (),
        { (call t).2 with console := (call t).2.console ++ [validateLine label (call t).1] }) := by
  subst hl
  simp only [JsM.tryCatch_apply, JsM.bind_apply, log, consoleLog_apply]
  rcases h : call t with ⟨o, t1⟩
  cases o <;> rfl

theorem getAuthToken_outcome (net : Network) (self : BankingApiClient)
    (claim username password encoded : JsString) (t : Trace)
    (h : encodeURIComponent claim = Except.ok encoded) :
    BankingApiClient.getAuthToken net self claim username password t =
      (methodOutcome (some (js "Auth failed: ")) (net t.calls.length
          ⟨self.baseUrl ++ js "/authToken" ++ js "?claim=" ++ encoded, some (js "POST"),
            some (JSON.stringify (JsValue.object [(js "username", JsValue.string username),
              (js "password", JsValue.string password)]) 0),
            [(js "Content-Type", js "application/json")]⟩),
        { t with calls := t.calls ++
          [⟨self.baseUrl ++ js "/authToken" ++ js "?claim=" ++ encoded, some (js "POST"),
            some (JSON.stringify (JsValue.object [(js "username", JsValue.string username),
              (js "password", JsValue.string password)]) 0),
            [(js "Content-Type", js "application/json")]⟩] }) := by
  rw [getAuthToken_run, h]

theorem listAccounts_outcome (net : Network) (self : BankingApiClient) (t : Trace) :
    BankingApiClient.listAccounts net self t =
      (methodOutcome (some (js "Failed to list accounts: ")) (net t.calls.length
          ⟨self.baseUrl ++ js "/accounts", some (js "GET"), none,
            [(js "Content-Type", js "application/json")]⟩),
        { t with calls := t.calls ++
          [⟨self.baseUrl ++ js "/accounts", some (js "GET"), none,
            [(js "Content-Type", js "application/json")]⟩] }) := by
  rw [listAccounts_run]

theorem validateAccount_outcome (net : Network) (self : BankingApiClient)
    (accountId encoded : JsString) (t : Trace)
    (h : encodeURIComponent accountId = Except.ok encoded) :
    BankingApiClient.validateAccount net self accountId t =
      (methodOutcome none (net t.calls.length
          ⟨self.baseUrl ++ js "/accounts/validate" ++ js "/" ++ encoded, some (js "GET"), none,
            [(js "Content-Type", js "application/json")]⟩),
        { t with calls := t.calls ++
          [⟨self.baseUrl ++ js "/accounts/validate" ++ js "/" ++ encoded, some (js "GET"), none,
            [(js "Content-Type", js "application/json")]⟩] }) := by
  rw [validateAccount_run, h]

theorem getAccountBalance_outcome (net : Network) (self : BankingApiClient)
    (accountId encoded : JsString) (t : Trace)
    (h : encodeURIComponent accountId = Except.ok encoded) :
    BankingApiClient.getAccountBalance net self accountId t =
      (methodOutcome (some (js "Failed to get balance: ")) (net t.calls.length
          ⟨self.baseUrl ++ js "/accounts/balance" ++ js "/" ++ encoded, some (js "GET"), none,
            [(js "Content-Type", js "application/json")]⟩),
        { t with calls := t.calls ++
          [⟨self.baseUrl ++ js "/accounts/balance" ++ js "/" ++ encoded, some (js "GET"), none,
            [(js "Content-Type", js "application/json")]⟩] }) := by
  rw [getAccountBalance_run, h]

theorem transferFunds_outcome (net : Network) (self : BankingApiClient)
    (fromAccount toAccount : JsString) (amount : JsNumber) (t : Trace) :
    BankingApiClient.transferFunds net self fromAccount toAccount amount t =
      (methodOutcome none (net t.calls.length
          ⟨self.baseUrl ++ js "/transfer", some (js "POST"),
            some (JSON.stringify (JsValue.object [(js "fromAccount", JsValue.string fromAccount),
              (js "toAccount", JsValue.string toAccount), (js "amount", JsValue.number amount)]) 0),
            [(js "Content-Type", js "application/json")]⟩),
        { t with calls := t.calls ++
          [⟨self.baseUrl ++ js "/transfer", some (js "POST"),
            some (JSON.stringify (JsValue.object [(js "fromAccount", JsValue.string fromAccount),
              (js "toAccount", JsValue.string toAccount), (js "amount", JsValue.number amount)]) 0),
            [(js "Content-Type", js "application/json")]⟩] }) := by
  rw [transferFunds_run]

theorem log_apply (message : JsString) (t : Trace) :
    log message t = (Except.ok (), { t with console := t.console ++ [message] }) := rfl

theorem logEmpty_apply (t : Trace) :
    logEmpty t = (Except.ok (), { t with console := t.console ++ [js ""] }) := rfl

theorem printSection_apply (title : JsString) (t : Trace) :
    printSection title t = (Except.ok (), { t with console := t.console ++
      [js "", js "==========================================", title,
        js "=========================================="] }) := by
  simp only [printSection, JsM.bind_apply, consoleLog_apply, List.append_assoc,
    List.singleton_append, List.cons_append, List.nil_append]

theorem printTest_apply (name : JsString) (t : Trace) :
    printTest name t = (Except.ok (), { t with console := t.console ++
      [js "", js "--- " ++ name ++ js " ---"] }) := by
  simp only [printTest, JsM.bind_apply, consoleLog_apply, List.append_assoc,
    List.singleton_append]

/-- Test 2.2 inside `runTest`: three accounts, each with its own handler, so
`runTest` has nothing to catch. -/
theorem runTest_validate (testName l1 x1 l2 x2 l3 x3 : JsString) (c1 c2 c3 : JsM JsString)
    (t : Trace) (h1 : x1 = l1 ++ js "Error - ") (h2 : x2 = l2 ++ js "Error - ")
    (h3 : x3 = l3 ++ js "Error - ") :
    runTest testName (do
        JsM.tryCatch (do let response ← c1; log (l1 ++ response))
          (fun error => log (x1 ++ error.message))
        JsM.tryCatch (do let response ← c2; log (l2 ++ response))
          (fun error => log (x2 ++ error.message))
        JsM.tryCatch (do let response ← c3; log (l3 ++ response))
          (fun error => log (x3 ++ error.message))) t =
      (Except.ok (),
        { (c3 { (c2 { (c1 t).2 with
                  console := (c1 t).2.console ++ [validateLine l1 (c1 t).1] }).2 with
              console := (c2 { (c1 t).2 with
                  console := (c1 t).2.console ++ [validateLine l1 (c1 t).1] }).2.console
                ++ [validateLine l2 (c2 { (c1 t).2 with
                  console := (c1 t).2.console ++ [validateLine l1 (c1 t).1] }).1] }).2 with
          console := (c3 { (c2 { (c1 t).2 with
                  console := (c1 t).2.console ++ [validateLine l1 (c1 t).1] }).2 with
              console := (c2 { (c1 t).2 with
                  console := (c1 t).2.console ++ [validateLine l1 (c1 t).1] }).2.console
                ++ [validateLine l2 (c2 { (c1 t).2 with
                  console := (c1 t).2.console ++ [validateLine l1 (c1 t).1] }).1] }).2.console
            ++ [validateLine l3 (c3 { (c2 { (c1 t).2 with
                  console := (c1 t).2.console ++ [validateLine l1 (c1 t).1] }).2 with
              console := (c2 { (c1 t).2 with
                  console := (c1 t).2.console ++ [validateLine l1 (c1 t).1] }).2.console
                ++ [validateLine l2 (c2 { (c1 t).2 with
                  console := (c1 t).2.console ++ [validateLine l1 (c1 t).1] }).1] }).1] }) := by
  rw [runTest, JsM.tryCatch_apply]
  simp only [JsM.bind_apply, validate_logged l1 x1 c1 _ h1, validate_logged l2 x2 c2 _ h2,
    validate_logged l3 x3 c3 _ h3]

/-- The requests the client builds for the calls of the demo are the nine
requests of `demoRequest`. -/
theorem demoRequest_eq (b : JsString) :
    (⟨b ++ js "/authToken" ++ js "?claim=" ++ js "enquiry", some (js "POST"),
        some (JSON.stringify (JsValue.object [(js "username", JsValue.string (js "alice")),
          (js "password", JsValue.string (js "any"))]) 0),
        [(js "Content-Type", js "application/json")]⟩ : FetchCall) = demoRequest b 0 ∧
    (⟨b ++ js "/authToken" ++ js "?claim=" ++ js "transfer", some (js "POST"),
        some (JSON.stringify (JsValue.object [(js "username", JsValue.string (js "bob")),
          (js "password", JsValue.string (js "secret"))]) 0),
        [(js "Content-Type", js "application/json")]⟩ : FetchCall) = demoRequest b 1 ∧
    (⟨b ++ js "/accounts", some (js "GET"), none,
        [(js "Content-Type", js "application/json")]⟩ : FetchCall) = demoRequest b 2 ∧
    (⟨b ++ js "/accounts/validate" ++ js "/" ++ js "ACC1000", some (js "GET"), none,
        [(js "Content-Type", js "application/json")]⟩ : FetchCall) = demoRequest b 3 ∧
    (⟨b ++ js "/accounts/validate" ++ js "/" ++ js "ACC2000", some (js "GET"), none,
        [(js "Content-Type", js "application/json")]⟩ : FetchCall) = demoRequest b 4 ∧
    (⟨b ++ js "/accounts/validate" ++ js "/" ++ js "ACC9999", some (js "GET"), none,
        [(js "Content-Type", js "application/json")]⟩ : FetchCall) = demoRequest b 5 ∧
    (⟨b ++ js "/accounts/balance" ++ js "/" ++ js "ACC1000", some (js "GET"), none,
        [(js "Content-Type", js "application/json")]⟩ : FetchCall) = demoRequest b 6 ∧
    (⟨b ++ js "/transfer", some (js "POST"),
        some (JSON.stringify (JsValue.object [(js "fromAccount", JsValue.string (js "ACC1000")),
          (js "toAccount", JsValue.string (js "ACC1001")),
          (js "amount", JsValue.number ⟨js "50"⟩)]) 0),
        [(js "Content-Type", js "application/json")]⟩ : FetchCall) = demoRequest b 7 ∧
    (⟨b ++ js "/transfer", some (js "POST"),
        some (JSON.stringify (JsValue.object [(js "fromAccount", JsValue.string (js "ACC2000")),
          (js "toAccount", JsValue.string (js "ACC1001")),
          (js "amount", JsValue.number ⟨js "50"⟩)]) 0),
        [(js "Content-Type", js "application/json")]⟩ : FetchCall) = demoRequest b 8 := by
  have u0 : b ++ js "/authToken" ++ js "?claim=" ++ js "enquiry"
      = b ++ js "/authToken?claim=enquiry" := by simp [js, utf16EncodeCodePoint]
  have u1 : b ++ js "/authToken" ++ js "?claim=" ++ js "transfer"
      = b ++ js "/authToken?claim=transfer" := by simp [js, utf16EncodeCodePoint]
  have u3 : b ++ js "/accounts/validate" ++ js "/" ++ js "ACC1000"
      = b ++ js "/accounts/validate/ACC1000" := by simp [js, utf16EncodeCodePoint]
  have u4 : b ++ js "/accounts/validate" ++ js "/" ++ js "ACC2000"
      = b ++ js "/accounts/validate/ACC2000" := by simp [js, utf16EncodeCodePoint]
  have u5 : b ++ js "/accounts/validate" ++ js "/" ++ js "ACC9999"
      = b ++ js "/accounts/validate/ACC9999" := by simp [js, utf16EncodeCodePoint]
  have u6 : b ++ js "/accounts/balance" ++ js "/" ++ js "ACC1000"
      = b ++ js "/accounts/balance/ACC1000" := by simp [js, utf16EncodeCodePoint]
  have b0 : JSON.stringify (JsValue.object [(js "username", JsValue.string (js "alice")),
      (js "password", JsValue.string (js "any"))]) 0
      = js "\x7b\"username\":\"alice\",\"password\":\"any\"\x7d" := by decide
  have b1 : JSON.stringify (JsValue.object [(js "username", JsValue.string (js "bob")),
      (js "password", JsValue.string (js "secret"))]) 0
      = js "\x7b\"username\":\"bob\",\"password\":\"secret\"\x7d" := by decide
  have b7 : JSON.stringify (JsValue.object [(js "fromAccount", JsValue.string (js "ACC1000")),
      (js "toAccount", JsValue.string (js "ACC1001")), (js "amount", JsValue.number ⟨js "50"⟩)]) 0
      = js "\x7b\"fromAccount\":\"ACC1000\",\"toAccount\":\"ACC1001\",\"amount\":50\x7d" := by
    decide
  have b8 : JSON.stringify (JsValue.object [(js "fromAccount", JsValue.string (js "ACC2000")),
      (js "toAccount", JsValue.string (js "ACC1001")), (js "amount", JsValue.number ⟨js "50"⟩)]) 0
      = js "\x7b\"fromAccount\":\"ACC2000\",\"toAccount\":\"ACC1001\",\"amount\":50\x7d" := by
    decide
  rw [u0, u1, u3, u4, u5, u6, b0, b1, b7, b8]
  exact ⟨rfl, rfl, rfl, rfl, rfl, rfl, rfl, rfl, rfl⟩

/-- The whole run of the demo on any network: it completes normally, having
made the nine requests in order and written the expected lines. -/
theorem runDemo_run (net : Network) (env : Option JsString) :
    runDemo net env Trace.empty
      = (Except.ok (),
          ⟨(List.range 9).map (demoRequest (BankingApiClient.new (some (BASE_URL env))).baseUrl),
            demoConsole (BASE_URL env)
              (demoOutcome net (BankingApiClient.new (some (BASE_URL env))).baseUrl)⟩) := by
  simp only [runDemo]
  generalize BankingApiClient.new (some (BASE_URL env)) = client
  generalize BASE_URL env = shown
  have e1 : encodeURIComponent AUTH_CLAIMS.ENQUIRY = Except.ok (js "enquiry") := by decide
  have e2 : encodeURIComponent AUTH_CLAIMS.TRANSFER = Except.ok (js "transfer") := by decide
  have e3 : encodeURIComponent TEST_ACCOUNTS.VALID = Except.ok (js "ACC1000") := by decide
  have e4 : encodeURIComponent TEST_ACCOUNTS.INVALID = Except.ok (js "ACC2000") := by decide
  have e5 : encodeURIComponent TEST_ACCOUNTS.NON_EXISTENT = Except.ok (js "ACC9999") := by decide
  have v : ∀ (c1 c2 c3 : JsM JsString) (t : Trace), _ :=
    fun c1 c2 c3 t => runTest_validate (js "2.2 Validate accounts")
      (js "ACC1000 (valid): ") (js "ACC1000 (valid): Error - ")
      (js "ACC2000 (invalid): ") (js "ACC2000 (invalid): Error - ")
      (js "ACC9999 (non-existent): ") (js "ACC9999 (non-existent): Error - ") c1 c2 c3 t
      (by decide) (by decide) (by decide)
  simp only [JsM.bind_apply, runTest_logged, v,
    getAuthToken_outcome net client _ _ _ _ _ e1, getAuthToken_outcome net client _ _ _ _ _ e2,
    listAccounts_outcome, validateAccount_outcome net client _ _ _ e3,
    validateAccount_outcome net client _ _ _ e4, validateAccount_outcome net client _ _ _ e5,
    getAccountBalance_outcome net client _ _ _ e3, transferFunds_outcome,
    log_apply, logEmpty_apply, printSection_apply, printTest_apply, Trace.empty]
  obtain ⟨q0, q1, q2, q3, q4, q5, q6, q7, q8⟩ := demoRequest_eq client.baseUrl
  simp only [q0, q1, q2, q3, q4, q5, q6, q7, q8]
  have hr : List.range 9 = [0, 1, 2, 3, 4, 5, 6, 7, 8] := by decide
  have t1 : js "--- " ++ js "1.1 Enquiry token (default scope)" ++ js " ---"
      = js "--- 1.1 Enquiry token (default scope) ---" := by decide
  have t2 : js "--- " ++ js "1.2 Transfer token (maximum scope)" ++ js " ---"
      = js "--- 1.2 Transfer token (maximum scope) ---" := by decide
  have t3 : js "--- " ++ js "2.1 List all accounts" ++ js " ---"
      = js "--- 2.1 List all accounts ---" := by decide
  have t4 : js "--- " ++ js "2.2 Validate accounts" ++ js " ---"
      = js "--- 2.2 Validate accounts ---" := by decide
  have t5 : js "--- " ++ js "2.3 Get account balance" ++ js " ---"
      = js "--- 2.3 Get account balance ---" := by decide
  have t6 : js "--- " ++ js "3.1 Basic transfer (no auth)" ++ js " ---"
      = js "--- 3.1 Basic transfer (no auth) ---" := by decide
  have t7 : js "--- " ++ js "3.2 Invalid transfer" ++ js " ---"
      = js "--- 3.2 Invalid transfer ---" := by decide
  simp only [hr, List.map, demoConsole, demoOutcome, demoLabel, t1, t2, t3, t4, t5, t6, t7,
    List.length_append, List.length_singleton, List.length_nil, List.length_cons,
    List.append_assoc, List.nil_append, List.cons_append, List.singleton_append, Nat.reduceAdd,
    zero_add]

theorem testLine_error (testName full : JsString) (e : JsError)
    (h : js "Error in " ++ testName ++ js ": " = full) :
    testLine testName (Except.error e) = full ++ e.message := by
  rw [← h]; rfl

theorem validateLine_error (label full : JsString) (e : JsError)
    (h : label ++ js "Error - " = full) :
    validateLine label (Except.error e) = full ++ e.message := by
  rw [← h]; rfl

/-- The nine lines that depend on the outcomes are lines of the console. -/
theorem demoConsole_mem (shown : JsString) (outcome : Nat → Except JsError JsString) :
    testLine (js "1.1 Enquiry token") (outcome 0) ∈ demoConsole shown outcome ∧
    testLine (js "1.2 Transfer token") (outcome 1) ∈ demoConsole shown outcome ∧
    testLine (js "2.1 List accounts") (outcome 2) ∈ demoConsole shown outcome ∧
    validateLine (js "ACC1000 (valid): ") (outcome 3) ∈ demoConsole shown outcome ∧
    validateLine (js "ACC2000 (invalid): ") (outcome 4) ∈ demoConsole shown outcome ∧
    validateLine (js "ACC9999 (non-existent): ") (outcome 5) ∈ demoConsole shown outcome ∧
    testLine (js "2.3 Get balance") (outcome 6) ∈ demoConsole shown outcome ∧
    testLine (js "3.1 Basic transfer") (outcome 7) ∈ demoConsole shown outcome ∧
    testLine (js "3.2 Invalid transfer") (outcome 8) ∈ demoConsole shown outcome := by
  refine ⟨?_, ?_, ?_, ?_, ?_, ?_, ?_, ?_, ?_⟩ <;>
    simp only [demoConsole, List.mem_cons, true_or, or_true]

set_option maxRecDepth 100000 in
/-- C8 as stated fails: on a network where every `fetch` is rejected,
`validateAccount('ACC1000')` throws a network error, yet no line
`Error in 2.2 Validate accounts: ...` is written: the error is caught by the
handler inside test 2.2 and logged as `ACC1000 (valid): Error - ...`. -/
theorem demo_validate_error_counterexample :
    (BankingApiClient.validateAccount
        (fun _ _ => Except.error ⟨ErrorKind.TypeError, js "fetch failed"⟩)
        (BankingApiClient.new (some (BASE_URL none))) TEST_ACCOUNTS.VALID Trace.empty).1
      = Except.error ⟨ErrorKind.Error, js "Network error: fetch failed"⟩ ∧
    js "Error in 2.2 Validate accounts: Network error: fetch failed" ∉
      (runDemo (fun _ _ => Except.error ⟨ErrorKind.TypeError, js "fetch failed"⟩) none
        Trace.empty).2.console ∧
    (∀ line ∈ (runDemo (fun _ _ => Except.error ⟨ErrorKind.TypeError, js "fetch failed"⟩) none
        Trace.empty).2.console, ¬ js "Error in 2.2" <+: line) ∧
    js "ACC1000 (valid): Error - Network error: fetch failed" ∈
      (runDemo (fun _ _ => Except.error ⟨ErrorKind.TypeError, js "fetch failed"⟩) none
        Trace.empty).2.console := by
  decide

/-- C8, amended: whatever the nine client calls complete with, `runDemo`
completes normally (exit status 0), having made the nine requests in the order
1.1, 1.2, 2.1, 2.2 (three), 2.3, 3.1, 3.2 and written the lines of
`demoConsole`; an error thrown by `getAuthToken`, `listAccounts`,
`getAccountBalance` or `transferFunds` is caught by `runTest` and logged as
`Error in <test name>: <message>`, an error thrown by one of the three
`validateAccount` calls is caught inside test 2.2 and logged as
`<account label>: Error - <message>`. -/
theorem demo_never_aborts (net : Network) (env : Option JsString) :
    (runDemo net env Trace.empty).1 = Except.ok () ∧
    (demoScript net env).1 = 0 ∧
    (runDemo net env Trace.empty).2.calls =
      (List.range 9).map (demoRequest (BankingApiClient.new (some (BASE_URL env))).baseUrl) ∧
    (runDemo net env Trace.empty).2.console =
      demoConsole (BASE_URL env)
        (demoOutcome net (BankingApiClient.new (some (BASE_URL env))).baseUrl) ∧
    (∀ e, demoOutcome net (BankingApiClient.new (some (BASE_URL env))).baseUrl 0 = Except.error e →
      js "Error in 1.1 Enquiry token: " ++ e.message ∈ (runDemo net env Trace.empty).2.console) ∧
    (∀ e, demoOutcome net (BankingApiClient.new (some (BASE_URL env))).baseUrl 1 = Except.error e →
      js "Error in 1.2 Transfer token: " ++ e.message ∈ (runDemo net env Trace.empty).2.console) ∧
    (∀ e, demoOutcome net (BankingApiClient.new (some (BASE_URL env))).baseUrl 2 = Except.error e →
      js "Error in 2.1 List accounts: " ++ e.message ∈ (runDemo net env Trace.empty).2.console) ∧
    (∀ e, demoOutcome net (BankingApiClient.new (some (BASE_URL env))).baseUrl 3 = Except.error e →
      js "ACC1000 (valid): Error - " ++ e.message ∈ (runDemo net env Trace.empty).2.console) ∧
    (∀ e, demoOutcome net (BankingApiClient.new (some (BASE_URL env))).baseUrl 4 = Except.error e →
      js "ACC2000 (invalid): Error - " ++ e.message ∈ (runDemo net env Trace.empty).2.console) ∧
    (∀ e, demoOutcome net (BankingApiClient.new (some (BASE_URL env))).baseUrl 5 = Except.error e →
      js "ACC9999 (non-existent): Error - " ++ e.message
        ∈ (runDemo net env Trace.empty).2.console) ∧
    (∀ e, demoOutcome net (BankingApiClient.new (some (BASE_URL env))).baseUrl 6 = Except.error e →
      js "Error in 2.3 Get balance: " ++ e.message ∈ (runDemo net env Trace.empty).2.console) ∧
    (∀ e, demoOutcome net (BankingApiClient.new (some (BASE_URL env))).baseUrl 7 = Except.error e →
      js "Error in 3.1 Basic transfer: " ++ e.message ∈ (runDemo net env Trace.empty).2.console) ∧
    (∀ e, demoOutcome net (BankingApiClient.new (some (BASE_URL env))).baseUrl 8 = Except.error e →
      js "Error in 3.2 Invalid transfer: " ++ e.message
        ∈ (runDemo net env Trace.empty).2.console) := by
  have hrun := runDemo_run net env
  have hexit : (demoScript net env).1 = 0 := by rw [demoScript, hrun]
  rw [hrun]
  obtain ⟨m0, m1, m2, m3, m4, m5, m6, m7, m8⟩ := demoConsole_mem (BASE_URL env)
    (demoOutcome net (BankingApiClient.new (some (BASE_URL env))).baseUrl)
  refine ⟨rfl, hexit, rfl, rfl, ?_, ?_, ?_, ?_, ?_, ?_, ?_, ?_, ?_⟩
  · intro e h
    rw [h, testLine_error _ (js "Error in 1.1 Enquiry token: ") e (by decide)] at m0
    exact m0
  · intro e h
    rw [h, testLine_error _ (js "Error in 1.2 Transfer token: ") e (by decide)] at m1
    exact m1
  · intro e h
    rw [h, testLine_error _ (js "Error in 2.1 List accounts: ") e (by decide)] at m2
    exact m2
  · intro e h
    rw [h, validateLine_error _ (js "ACC1000 (valid): Error - ") e (by decide)] at m3
    exact m3
  · intro e h
    rw [h, validateLine_error _ (js "ACC2000 (invalid): Error - ") e (by decide)] at m4
    exact m4
  · intro e h
    rw [h, validateLine_error _ (js "ACC9999 (non-existent): Error - ") e (by decide)] at m5
    exact m5
  · intro e h
    rw [h, testLine_error _ (js "Error in 2.3 Get balance: ") e (by decide)] at m6
    exact m6
  · intro e h
    rw [h, testLine_error _ (js "Error in 3.1 Basic transfer: ") e (by decide)] at m7
    exact m7
  · intro e h
    rw [h, testLine_error _ (js "Error in 3.2 Invalid transfer: ") e (by decide)] at m8
    exact m8
